import Mathlib

/-!
Verification development for the iTapRing checkout backend.

This file gives a shallow embedding, in Lean, of the cart price-validation
and order-fulfillment pipeline of the iTapRing server:

* the in-memory Order Store (`order.service.js`): `saveOrder`,
  `getOrderBySessionId`, `getAllOrders`;
* the sequential order-id generator (`utils/helpers.js`): `generateOrderId`;
* cart validation (`product.service.js`): `validateProductPrice` with its
  retry/backoff loop, and `validateCart`;
* the fulfillment pipeline and webhook handling (`stripe.controller.js`):
  `fulfillOrder`, `verifyCheckoutSession`, `handleWebhook`;
* a small-step interleaving model of concurrently running `fulfillOrder`
  invocations, used to analyse the duplicate-order race.

Modelling conventions:

* JavaScript numbers are modelled as `ℚ` (exact rationals); Stripe amounts
  in cents are `ℤ`.  Floating-point rounding of JS arithmetic is not
  modelled; `Number(x.toFixed(2))` is modelled as rounding to the nearest
  multiple of `1/100` (ties away from zero for positive values, matching
  the ECMAScript `toFixed` specification on exact values).
* JavaScript string falsiness (`undefined`, `""`) is modelled by
  `Option String` together with `jsStr`, which collapses `some ""` to
  `none`.
* Network calls to Stripe are modelled as explicit function parameters
  (`Provider`, `retrieve`, `constructEvent`, SMTP send): the environment
  decides each call's outcome.  A thrown JS `Error` is an explicit
  `JsError` value carrying `message` and optional `code`.
* `Date.now()` / `new Date()` values are threaded as explicit `now`
  parameters.
* The decimal rendering of a number inside a template string is modelled
  by `ratStr` (digits, `-` and `/` only); the exact digit sequence differs
  from JS float formatting but no claim depends on it.
-/

namespace ITap

/-- Substring test on character lists: `containsSub l sub` is true iff `sub`
occurs contiguously inside `l`.  Embeds JavaScript `String.includes`. -/
def containsSub : List Char → List Char → Bool
  | l, sub =>
    if sub.isPrefixOf l then true
    else
      match l with
      | [] => false
      | _ :: t => containsSub t sub

/-- JavaScript `s.includes(sub)`. -/
def strIncludes (s sub : String) : Bool :=
  containsSub s.data sub.data

/-- JavaScript string truthiness: `undefined` and `""` are falsy.  Collapses
`some ""` to `none` so that a `match` on the result mirrors a JS truthiness
test. -/
def jsStr : Option String → Option String
  | none => none
  | some s => if s = "" then none else some s

/-- JavaScript `a || d` for a possibly-absent string `a` with default `d`. -/
def jsStrOr (a : Option String) (d : String) : String :=
  match jsStr a with
  | some s => s
  | none => d

/-- JavaScript `a || b || d` for possibly-absent strings. -/
def jsStrOr2 (a b : Option String) (d : String) : String :=
  match jsStr a with
  | some s => s
  | none => jsStrOr b d

/-- Decimal digit character for `n < 10`. -/
def digitChar (n : ℕ) : Char := Char.ofNat (48 + n)

/-- Digit characters of a natural number (fuel-based, most significant
first). -/
def natChars : ℕ → ℕ → List Char
  | 0, _ => []
  | fuel + 1, n =>
    if n < 10 then [digitChar n]
    else natChars fuel (n / 10) ++ [digitChar (n % 10)]

/-- Rendering of an integer: digits with an optional leading minus sign. -/
def intStr (i : ℤ) : String :=
  match i with
  | .ofNat n => ⟨natChars (n + 1) n⟩
  | .negSucc n => ⟨'-' :: natChars (n + 2) (n + 1)⟩

/-- Rendering of a rational number used inside error-message template
strings (models the interpolation of a JS number into a template literal;
the digit sequence differs from JS float formatting, but every claim is
insensitive to it).  Produces only digits, `-` and `/`. -/
def ratStr (q : ℚ) : String :=
  if q.den = 1 then intStr q.num else intStr q.num ++ "/" ++ intStr (q.den : ℤ)

/-- `Number(x.toFixed(2))`: rounding to 2 decimal places, ties away from
zero for positive values (ECMAScript `toFixed` picks the larger candidate
on ties, which on exact rationals is `round` = `⌊x + 1/2⌋`). -/
def roundTo2 (x : ℚ) : ℚ := ((round (x * 100) : ℤ) : ℚ) / 100

/-- A thrown JavaScript `Error`: its `message` and optional `code` field. -/
structure JsError where
  message : String
  code : Option String
deriving DecidableEq, Repr

/-! ## Order Store (`order.service.js`) -/

/-- A shipping address as stored on an Order (built from the Stripe
session's `shipping_details`). -/
structure ShippingAddress where
  name : String
  line1 : String
  line2 : Option String
  city : String
  state : String
  postal_code : String
  country : String
deriving DecidableEq, Repr

/-- One item of a persisted Order (built from a Stripe line item plus the
session metadata). -/
structure OrderItem where
  productId : String
  name : String
  color : String
  size : Option ℤ
  quantity : ℤ
  price : ℚ
deriving DecidableEq, Repr

/-- A persisted Order.  `createdAt`/`updatedAt` are epoch milliseconds;
`updatedAt` is `none` until `saveOrder` stamps the record. -/
structure Order where
  orderId : String
  stripeSessionId : String
  stripePaymentIntentId : Option String
  customerEmail : String
  customerName : Option String
  amount : ℚ
  currency : String
  paymentStatus : String
  shippingAddress : Option ShippingAddress
  items : List OrderItem
  metadata : List (String × String)
  createdAt : ℤ
  updatedAt : Option ℤ
deriving DecidableEq, Repr

/-- The in-memory order store: the `orders` Map of `order.service.js`,
keyed by `orderId`, in insertion order. -/
abbrev OrderStore := List Order

/-- `saveOrder(orderData)`: if an order with the same `orderId` already
exists, return the existing record and leave the store unchanged;
otherwise stamp `createdAt`/`updatedAt` with the current time and insert.
The key is `orderId` — not `stripeSessionId`. -/
def saveOrder (now : ℤ) (store : OrderStore) (orderData : Order) :
    OrderStore × Order :=
  match store.find? (fun o => o.orderId == orderData.orderId) with
  | some existing => (store, existing)
  | none =>
      let order := { orderData with createdAt := now, updatedAt := some now }
      (store ++ [order], order)

/-- `getOrderBySessionId(sessionId)`: first order whose `stripeSessionId`
matches, else `null`. -/
def getOrderBySessionId (store : OrderStore) (sessionId : String) :
    Option Order :=
  store.find? (fun o => o.stripeSessionId == sessionId)

/-- `getAllOrders()`. -/
def getAllOrders (store : OrderStore) : List Order := store

/-! ## Sequential order-id generator (`utils/helpers.js`) -/

/-- `generateOrderId()` (the sequential variant): counts the existing
orders and formats `IT-` followed by `100001 + count`.  The JS `catch`
fallback (timestamp-based id) is unreachable here because `getAllOrders`
cannot throw. -/
def generateOrderId (store : OrderStore) : String :=
  let orders := getAllOrders store
  let orderCount := orders.length
  let orderNumber := 100001 + orderCount
  "IT-" ++ toString orderNumber

/-! ## Stripe catalog data and the provider interface -/

/-- A Stripe product object as consumed by `validateProductPrice`. -/
structure StripeProduct where
  id : String
  name : String
  description : Option String
  images : List String
  default_price : Option String
deriving DecidableEq, Repr

/-- A Stripe price object. -/
structure StripePrice where
  id : String
  active : Bool
  unit_amount : ℤ
  currency : String
deriving DecidableEq, Repr

/-- The Stripe API as seen by price validation.  Responses are indexed by
the attempt number so that transient failures on some attempts and success
on later ones can be expressed; a `Promise.race` timeout of the JS code
appears as an `.error` whose message contains `"timeout"`. -/
structure Provider where
  retrieveProduct : String → ℕ → Except JsError StripeProduct
  retrievePrice : String → ℕ → Except JsError StripePrice

/-- The `STRIPE_PRODUCT_*` environment variables backing the product-id
map. -/
structure ProductEnv where
  STRIPE_PRODUCT_RING_BLACK : Option String
  STRIPE_PRODUCT_RING_WHITE : Option String
  STRIPE_PRODUCT_CF_MARBLE : Option String
  STRIPE_PRODUCT_CF_VOLCANO : Option String
  STRIPE_PRODUCT_GOLD_MARBLE : Option String
  STRIPE_PRODUCT_GOLD_VOLCANO : Option String

/-- `getProductIdMap()`: the fixed frontend-id → Stripe-product-id table
(values come from the environment; a missing or empty value means the
frontend id does not resolve). -/
def getProductIdMap (env : ProductEnv) (pid : String) : Option String :=
  if pid = "ring-black" then jsStr env.STRIPE_PRODUCT_RING_BLACK
  else if pid = "ring-white" then jsStr env.STRIPE_PRODUCT_RING_WHITE
  else if pid = "bracelet-cf-marble" then jsStr env.STRIPE_PRODUCT_CF_MARBLE
  else if pid = "bracelet-cf-volcano" then jsStr env.STRIPE_PRODUCT_CF_VOLCANO
  else if pid = "bracelet-gold-marble" then jsStr env.STRIPE_PRODUCT_GOLD_MARBLE
  else if pid = "bracelet-gold-volcano" then jsStr env.STRIPE_PRODUCT_GOLD_VOLCANO
  else none

/-! ## validateProductPrice (`product.service.js`) -/

/-- The record returned by a successful `validateProductPrice`. -/
structure ValidatedItem where
  valid : Bool
  productId : String
  stripeProductId : String
  stripePriceId : String
  validatedPrice : ℚ
  totalPrice : ℚ
  productName : String
  productDescription : String
  productImages : List String
  quantity : ℤ
  size : Option ℤ
  verifiedAt : String
deriving DecidableEq, Repr

/-- The price-mismatch error thrown when the claimed price differs from the
authoritative Stripe price by more than one cent. -/
def priceMismatchErr (actualPrice claimedPrice : ℚ) : JsError :=
  { message := "Price mismatch: Expected $" ++ ratStr actualPrice ++
      ", got $" ++ ratStr claimedPrice,
    code := none }

/-- One attempt of the `validateProductPrice` retry loop: fetch the product,
fetch its default price, check activity and the one-cent tolerance, and on
success build the validated record (carrying the Stripe price, never the
claimed price). -/
def validateAttempt (prov : Provider) (now : String)
    (stripeProductId productId : String) (claimedPrice : ℚ) (quantity : ℤ)
    (size : Option ℤ) (attempt : ℕ) : Except JsError ValidatedItem :=
  match prov.retrieveProduct stripeProductId attempt with
  | .error e => .error e
  | .ok stripeProduct =>
    match jsStr stripeProduct.default_price with
    | none =>
        .error { message := "No default price found for product: " ++ productId,
                 code := none }
    | some defaultPriceId =>
      match prov.retrievePrice defaultPriceId attempt with
      | .error e => .error e
      | .ok stripePrice =>
        if stripePrice.active = false then
          .error { message := "Default price not active for product: " ++ productId,
                   code := none }
        else
          let actualPrice : ℚ := (stripePrice.unit_amount : ℚ) / 100
          let priceDifference := |actualPrice - claimedPrice|
          if 1/100 < priceDifference then
            .error (priceMismatchErr actualPrice claimedPrice)
          else
            .ok { valid := true
                  productId := productId
                  stripeProductId := stripeProduct.id
                  stripePriceId := stripePrice.id
                  validatedPrice := actualPrice
                  totalPrice := actualPrice * (quantity : ℚ)
                  productName := stripeProduct.name
                  productDescription :=
                    jsStrOr stripeProduct.description stripeProduct.name
                  productImages := stripeProduct.images
                  quantity := quantity
                  size := size
                  verifiedAt := now }

/-- The retry predicate of `validateProductPrice`'s `catch` block (without
the `attempt < retries` conjunct, which lives in the loop): a timeout or
connection-reset error is transient. -/
def shouldRetryErr (e : JsError) : Bool :=
  strIncludes e.message "timeout" ||
  strIncludes e.message "ECONNRESET" ||
  strIncludes e.message "ETIMEDOUT" ||
  strIncludes e.message "EAI_AGAIN" ||
  e.code == some "ECONNRESET" ||
  e.code == some "ETIMEDOUT"

/-- The `for (attempt = 1; attempt <= retries; attempt++)` loop of
`validateProductPrice`.  Besides the result it returns the list of backoff
delays slept (in milliseconds): `100 * 2 ^ (attempt - 1)` before each
retry.  The fuel argument starts at `retries`; the fuel-exhausted branch is
the `Failed to validate ... after N attempts` fallthrough after the loop
(unreachable when `retries ≥ 1`). -/
def attemptLoop (step : ℕ → Except JsError ValidatedItem)
    (retries : ℕ) (productId : String) :
    ℕ → ℕ → Except JsError ValidatedItem × List ℕ
  | 0, _ =>
      (.error { message := "Failed to validate " ++ productId ++ " after " ++
                  toString retries ++ " attempts. Please try again.",
                code := none }, [])
  | fuel + 1, attempt =>
    match step attempt with
    | .ok v => (.ok v, [])
    | .error e =>
      if attempt < retries then
        if shouldRetryErr e then
          let rest := attemptLoop step retries productId fuel (attempt + 1)
          (rest.1, 100 * 2 ^ (attempt - 1) :: rest.2)
        else (.error e, [])
      else (.error e, [])

/-- `validateProductPrice` together with the backoff delays it slept. -/
def validateProductPriceAux (prov : Provider) (env : ProductEnv)
    (now : String) (productId : String) (claimedPrice : ℚ) (quantity : ℤ)
    (size : Option ℤ) (retries : ℕ) :
    Except JsError ValidatedItem × List ℕ :=
  match getProductIdMap env productId with
  | none => (.error { message := "Invalid product: " ++ productId, code := none }, [])
  | some stripeProductId =>
      attemptLoop
        (validateAttempt prov now stripeProductId productId claimedPrice quantity size)
        retries productId retries 1

/-- `validateProductPrice(productId, claimedPrice, quantity, size, retries)`. -/
def validateProductPrice (prov : Provider) (env : ProductEnv) (now : String)
    (productId : String) (claimedPrice : ℚ) (quantity : ℤ) (size : Option ℤ)
    (retries : ℕ) : Except JsError ValidatedItem :=
  (validateProductPriceAux prov env now productId claimedPrice quantity size retries).1

/-! ## validateCart (`product.service.js`) -/

/-- A client-submitted cart line (untrusted input).  Absent JS fields are
`none`; `price` and `quantity` are the client's claimed unit price and
quantity. -/
structure CartItem where
  id : String
  name : Option String
  price : ℚ
  quantity : ℤ
  size : Option ℤ
  color : Option String
  colorName : Option String
  category : Option String
deriving DecidableEq, Repr

/-- The `metadata` object attached to each validated cart item. -/
structure CartItemMeta where
  frontendProductId : String
  color : Option String
  size : Option ℤ
  category : Option String
  verifiedAt : String
deriving DecidableEq, Repr

/-- A validated cart line: the `validateProductPrice` record spread together
with the resolved color and the metadata object. -/
structure ValidatedCartItem extends ValidatedItem where
  color : String
  metadata : CartItemMeta
deriving DecidableEq, Repr

/-- The value returned by a successful `validateCart`. -/
structure ValidatedCart where
  valid : Bool
  items : List ValidatedCartItem
  totalAmount : ℚ
  itemCount : ℕ
  validatedAt : String
deriving DecidableEq, Repr

/-- The error thrown by `validateCart`: the JS `Error` message together with
the `validationErrors` array it was joined from (empty for the cart-empty
and cart-too-large rejections, which are thrown before the loop). -/
structure CartError where
  message : String
  reasons : List String
deriving DecidableEq, Repr

/-- One iteration of the `validateCart` loop for the line at index `i`
(0-based; messages use the 1-based position): the structural field check
(JS falsiness of `id`, `price`, `quantity`), the quantity bounds, then the
live price validation; a failure becomes the reason string pushed onto
`validationErrors`. -/
def lineOutcome (prov : Provider) (env : ProductEnv) (now : String) (i : ℕ)
    (item : CartItem) : Except String ValidatedCartItem :=
  if item.id = "" ∨ item.price = 0 ∨ item.quantity = 0 then
    .error ("Invalid cart item at position " ++ toString (i + 1) ++
      ": missing required fields")
  else if item.quantity < 1 ∨ 100 < item.quantity then
    .error ("Invalid quantity for " ++ item.id ++ ": " ++ toString item.quantity ++
      " (must be 1-100)")
  else
    match validateProductPrice prov env now item.id item.price item.quantity
        item.size 3 with
    | .error e => .error (item.id ++ ": " ++ e.message)
    | .ok validated =>
        .ok { toValidatedItem := validated
              color := jsStrOr2 item.colorName item.color "Standard"
              metadata :=
                { frontendProductId := item.id
                  color := jsStr item.colorName <|> jsStr item.color
                  size := item.size
                  category := item.category
                  verifiedAt := validated.verifiedAt } }

/-- The `for` loop of `validateCart`, threading the accumulators
`validatedItems`, `totalAmount` and `validationErrors`; every line is
processed regardless of earlier lines' outcomes. -/
def cartLoop (prov : Provider) (env : ProductEnv) (now : String) :
    List CartItem → ℕ → List ValidatedCartItem × ℚ × List String →
    List ValidatedCartItem × ℚ × List String
  | [], _, acc => acc
  | item :: rest, i, (validatedItems, totalAmount, validationErrors) =>
    match lineOutcome prov env now i item with
    | .ok v =>
        cartLoop prov env now rest (i + 1)
          (validatedItems ++ [v], totalAmount + v.totalPrice, validationErrors)
    | .error reason =>
        cartLoop prov env now rest (i + 1)
          (validatedItems, totalAmount, validationErrors ++ [reason])

/-- `validateCart(cartItems)`: reject empty or oversized carts outright
(before any provider interaction); otherwise process every line, and either
throw a single error joining all collected reasons, or return the validated
cart with the 2-decimal rounded total. -/
def validateCart (prov : Provider) (env : ProductEnv) (now : String)
    (cartItems : List CartItem) : Except CartError ValidatedCart :=
  if cartItems.length = 0 then
    .error { message := "Cart is empty", reasons := [] }
  else if 50 < cartItems.length then
    .error { message := "Cart too large (max 50 items)", reasons := [] }
  else
    let result := cartLoop prov env now cartItems 0 ([], 0, [])
    let validatedItems := result.1
    let totalAmount := result.2.1
    let validationErrors := result.2.2
    if validationErrors.length ≠ 0 then
      .error { message := "Validation failed: " ++
                 String.intercalate "; " validationErrors,
               reasons := validationErrors }
    else
      .ok { valid := true
            items := validatedItems
            totalAmount := roundTo2 totalAmount
            itemCount := validatedItems.length
            validatedAt := now }

/-! ## Stripe sessions and the fulfillment pipeline (`stripe.controller.js`) -/

/-- `session.customer_details`. -/
structure CustomerDetails where
  email : String
  name : Option String
deriving DecidableEq, Repr

/-- `session.shipping_details.address`. -/
structure StripeAddress where
  line1 : String
  line2 : Option String
  city : String
  state : String
  postal_code : String
  country : String
deriving DecidableEq, Repr

/-- `session.shipping_details`. -/
structure ShippingDetails where
  name : String
  address : Option StripeAddress
deriving DecidableEq, Repr

/-- A Stripe checkout session object as consumed by the fulfillment code. -/
structure Session where
  id : String
  payment_status : String
  payment_intent : Option String
  customer_details : CustomerDetails
  amount_total : ℤ
  currency : String
  shipping_details : Option ShippingDetails
  metadata : List (String × String)
  created : ℤ
deriving DecidableEq, Repr

/-- An expanded line item (`session.line_items.data[i]`). -/
structure LineItem where
  description : String
  quantity : ℤ
  amount_total : ℤ
deriving DecidableEq, Repr

/-- The session re-retrieved inside `fulfillOrder` with `line_items`
expanded (only `line_items` of it is read). -/
structure FullSession where
  line_items : List LineItem
deriving DecidableEq, Repr

/-- A Stripe webhook event: its `type` and `data.object` (a checkout
session for the event types that reach the fulfillment pipeline). -/
structure StripeEvent where
  type : String
  data_object : Session
deriving DecidableEq, Repr

/-- Lookup in a session's `metadata` object. -/
def metaLookup (metadata : List (String × String)) (key : String) :
    Option String :=
  (metadata.find? (fun p => p.1 == key)).map (fun p => p.2)

/-- The `items` mapping of the order construction: recover product id,
name, color and size of the `i`-th line item (0-based) from the
`item{n}_*` session metadata, falling back to `"unknown"` / the line-item
description / `"Unknown"`.  JS `parseInt(sizeValue, 10)` is modelled as an
exact integer parse. -/
def sessionLineToOrderItem (metadata : List (String × String)) (i : ℕ)
    (item : LineItem) : OrderItem :=
  let itemNum := i + 1
  let productId := jsStrOr (metaLookup metadata ("item" ++ toString itemNum ++ "_id")) "unknown"
  let productName := jsStrOr (metaLookup metadata ("item" ++ toString itemNum ++ "_name")) item.description
  let color := jsStrOr (metaLookup metadata ("item" ++ toString itemNum ++ "_color")) "Unknown"
  let sizeValue := metaLookup metadata ("item" ++ toString itemNum ++ "_size")
  let size : Option ℤ :=
    match jsStr sizeValue with
    | some sv => if sv = "N/A" then none else sv.toInt?
    | none => none
  { productId := productId
    name := productName
    color := color
    size := size
    quantity := item.quantity
    price := (item.amount_total : ℚ) / 100 }

/-- The `orderData` object literal built by the fulfillment code (both the
webhook `fulfillOrder` and `verifyCheckoutSession` build this same shape):
amounts are converted from cents, the shipping address is flattened, and
the items are recovered from the session metadata.  `createdAt` is
`session.created * 1000`; `saveOrder` later overwrites it with the save
time (the JS spread in `saveOrder` replaces `createdAt`). -/
def sessionToOrderData (orderId : String) (session : Session)
    (lineItems : List LineItem) : Order :=
  { orderId := orderId
    stripeSessionId := session.id
    stripePaymentIntentId := session.payment_intent
    customerEmail := session.customer_details.email
    customerName := session.customer_details.name
    amount := (session.amount_total : ℚ) / 100
    currency := session.currency
    paymentStatus := session.payment_status
    shippingAddress :=
      match session.shipping_details with
      | some sd =>
        match sd.address with
        | some a =>
            some { name := sd.name
                   line1 := a.line1
                   line2 := jsStr a.line2
                   city := a.city
                   state := a.state
                   postal_code := a.postal_code
                   country := a.country }
        | none => none
      | none => none
    items := session.metadata |> fun md =>
      (lineItems.enum.map (fun p => sessionLineToOrderItem md p.1 p.2))
    metadata := session.metadata
    createdAt := session.created * 1000
    updatedAt := none }

/-- `sendOrderConfirmationEmail(orderData)` (`email.service.js`): the whole
body is wrapped in `try/catch`, so whatever the SMTP layer does the
function returns normally.  The SMTP layer's outcome is the `smtp`
parameter. -/
def sendOrderConfirmationEmail (smtp : Order → Except JsError Unit)
    (orderData : Order) : Unit :=
  match smtp orderData with
  | .ok _ => ()
  | .error _ => ()

/-- The webhook-path `fulfillOrder(session)`: look up an existing order for
the session id (idempotency check); if absent, re-retrieve the session with
line items, generate the next sequential order id, build and save the
order, then attempt the confirmation email inside `try/catch` (its failure
is logged and swallowed).  Note: no `payment_status` check is performed on
this path.  A `retrieve` failure propagates (`handleWebhook` turns it into
a 500). -/
def fulfillOrder (retrieve : String → Except JsError FullSession)
    (smtp : Order → Except JsError Unit) (now : ℤ) (store : OrderStore)
    (session : Session) : Except JsError OrderStore :=
  match getOrderBySessionId store session.id with
  | some _existingOrder => .ok store
  | none =>
    match retrieve session.id with
    | .error e => .error e
    | .ok fullSession =>
      let orderId := generateOrderId store
      let orderData := sessionToOrderData orderId session fullSession.line_items
      let saved := saveOrder now store orderData
      let _email := sendOrderConfirmationEmail smtp orderData
      .ok saved.1

/-- The HTTP response of `verifyCheckoutSession`. -/
inductive VerifyResponse where
  | success (order : Order)
  | paymentNotComplete (paymentStatus : String)
  | serverError (e : JsError)
deriving DecidableEq, Repr

/-- `verifyCheckoutSession` (the synchronous client verify call): retrieve
the session (expanded); reject with a 400 "Payment not completed" if
`payment_status ≠ "paid"`; otherwise return the existing order for the
session if there is one, else generate an id, build the order, save it
(save failures are caught and only logged), attempt the confirmation
email (failures caught), and respond with the order data. -/
def verifyCheckoutSession
    (retrieveExpanded : String → Except JsError (Session × List LineItem))
    (smtp : Order → Except JsError Unit) (now : ℤ) (store : OrderStore)
    (sessionId : String) : OrderStore × VerifyResponse :=
  match retrieveExpanded sessionId with
  | .error e => (store, .serverError e)
  | .ok (session, lineItems) =>
    if session.payment_status ≠ "paid" then
      (store, .paymentNotComplete session.payment_status)
    else
      match getOrderBySessionId store sessionId with
      | some existingOrder => (store, .success existingOrder)
      | none =>
        let orderId := generateOrderId store
        let orderData :=
          { sessionToOrderData orderId session lineItems with
              stripeSessionId := sessionId }
        let saved := saveOrder now store orderData
        let _email := sendOrderConfirmationEmail smtp orderData
        (saved.1, .success orderData)

/-- The HTTP response of `handleWebhook`. -/
inductive WebhookResponse where
  | configError
  | missingSignature
  | invalidSignature
  | received
  | handlerFailed
deriving DecidableEq, Repr

/-- `handleWebhook`: fail closed with a 500 if the signing secret is not
configured, a 400 if the signature header is missing, and a 400 if
`constructEvent` (the signature verification) throws; only a successfully
verified `checkout.session.completed` event reaches `fulfillOrder`, with
the session taken from the event payload.  Other verified event types are
acknowledged without touching the order store. -/
def handleWebhook
    (constructEvent : String → String → String → Except JsError StripeEvent)
    (retrieve : String → Except JsError FullSession)
    (smtp : Order → Except JsError Unit) (now : ℤ) (store : OrderStore)
    (webhookSecret : Option String) (sig : Option String) (body : String) :
    OrderStore × WebhookResponse :=
  match jsStr webhookSecret with
  | none => (store, .configError)
  | some secret =>
    match jsStr sig with
    | none => (store, .missingSignature)
    | some s =>
      match constructEvent body s secret with
      | .error _err => (store, .invalidSignature)
      | .ok event =>
        if event.type = "checkout.session.completed" then
          match fulfillOrder retrieve smtp now store event.data_object with
          | .ok newStore => (newStore, .received)
          | .error _e => (store, .handlerFailed)
        else (store, .received)

/-! ## Interleaving model of concurrent `fulfillOrder` invocations

`fulfillOrder`'s idempotency check (`getOrderBySessionId`) and its write
(`saveOrder`) are separated by `await` suspension points (the session
re-retrieval and the order-count read of `generateOrderId`), so two
invocations for the same session — the client verify call and the webhook
racing — can interleave between check and write.  The model below splits
an invocation into a `checking` phase and a `committing` phase; a step
either starts an invocation, resolves a check against the current store,
or commits (re-retrieve + generate id + save) in one step.  Merging the
commit into one atomic step only restricts the set of interleavings, so
every state reachable here is reachable in the real scheduler. -/

/-- Phase of an in-flight `fulfillOrder` invocation. -/
inductive FulfillPhase where
  | checking
  | committing
deriving DecidableEq, Repr

/-- An in-flight `fulfillOrder` invocation. -/
structure InFlight where
  sess : Session
  phase : FulfillPhase
deriving DecidableEq, Repr

/-- One scheduler step over (order store, in-flight invocations). -/
inductive FulfillStep (retrieve : String → Except JsError FullSession) :
    OrderStore × List InFlight → OrderStore × List InFlight → Prop
  | start (store : OrderStore) (pending : List InFlight) (sess : Session) :
      FulfillStep retrieve (store, pending)
        (store, pending ++ [⟨sess, .checking⟩])
  | checkHit (store : OrderStore) (p1 p2 : List InFlight) (sess : Session)
      (o : Order) (h : getOrderBySessionId store sess.id = some o) :
      FulfillStep retrieve (store, p1 ++ ⟨sess, .checking⟩ :: p2)
        (store, p1 ++ p2)
  | checkMiss (store : OrderStore) (p1 p2 : List InFlight) (sess : Session)
      (h : getOrderBySessionId store sess.id = none) :
      FulfillStep retrieve (store, p1 ++ ⟨sess, .checking⟩ :: p2)
        (store, p1 ++ ⟨sess, .committing⟩ :: p2)
  | commitFail (store : OrderStore) (p1 p2 : List InFlight) (sess : Session)
      (e : JsError) (h : retrieve sess.id = .error e) :
      FulfillStep retrieve (store, p1 ++ ⟨sess, .committing⟩ :: p2)
        (store, p1 ++ p2)
  | commit (now : ℤ) (store : OrderStore) (p1 p2 : List InFlight)
      (sess : Session) (fs : FullSession) (h : retrieve sess.id = .ok fs) :
      FulfillStep retrieve (store, p1 ++ ⟨sess, .committing⟩ :: p2)
        ((saveOrder now store
            (sessionToOrderData (generateOrderId store) sess fs.line_items)).1,
          p1 ++ p2)

/-- States of the order store + scheduler reachable from the empty store
with no in-flight invocations. -/
def fulfillReachable (retrieve : String → Except JsError FullSession)
    (σ : OrderStore × List InFlight) : Prop :=
  Relation.ReflTransGen (FulfillStep retrieve) ([], []) σ

/-! ## Derived per-line views of the cart loop

These project, for a list of cart lines starting at index `i`, the
successful outcomes, the failure reasons, and the running total — each
line judged independently by `lineOutcome`.  They are the reference
against which the accumulator loop of `validateCart` is proved. -/

/-- The per-line failure reasons of the lines of `items`, the first line
carrying index `i`. -/
def lineErrs (prov : Provider) (env : ProductEnv) (now : String)
    (items : List CartItem) (i : ℕ) : List String :=
  (List.enumFrom i items).filterMap fun p =>
    match lineOutcome prov env now p.1 p.2 with
    | .error r => some r
    | .ok _ => none

/-- The successfully validated lines of `items`, the first line carrying
index `i`. -/
def lineOks (prov : Provider) (env : ProductEnv) (now : String)
    (items : List CartItem) (i : ℕ) : List ValidatedCartItem :=
  (List.enumFrom i items).filterMap fun p =>
    (lineOutcome prov env now p.1 p.2).toOption

/-- Sum of the line totals of the successfully validated lines. -/
def lineTotal (prov : Provider) (env : ProductEnv) (now : String)
    (items : List CartItem) (i : ℕ) : ℚ :=
  ((lineOks prov env now items i).map fun v => v.totalPrice).sum

/-- A cart line that passes every check of `validateCart` with a claimed
price exactly equal to the authoritative Stripe price (first-attempt
provider success). -/
def GoodItem (prov : Provider) (env : ProductEnv) (item : CartItem) : Prop :=
  ∃ spid prod dpid price,
    getProductIdMap env item.id = some spid ∧
    prov.retrieveProduct spid 1 = .ok prod ∧
    jsStr prod.default_price = some dpid ∧
    prov.retrievePrice dpid 1 = .ok price ∧
    price.active = true ∧
    ((price.unit_amount : ℤ) : ℚ) / 100 = item.price ∧
    item.id ≠ "" ∧ item.price ≠ 0 ∧ item.quantity ≠ 0 ∧
    1 ≤ item.quantity ∧ item.quantity ≤ 100

/-! ## Concrete sample data for counterexamples and witnesses -/

/-- A paid checkout session used in the duplicate-fulfillment trace. -/
def sessA : Session :=
  { id := "cs_test_a"
    payment_status := "paid"
    payment_intent := some "pi_test_a"
    customer_details := { email := "alice@example.com", name := some "Alice" }
    amount_total := 8000
    currency := "usd"
    shipping_details := none
    metadata := []
    created := 1700000000 }

/-- The expanded line items of `sessA` as re-retrieved by `fulfillOrder`. -/
def fsA : FullSession := { line_items := [⟨"iTapRing Black", 1, 8000⟩] }

/-- A provider whose session re-retrieval always succeeds with `fsA`. -/
def retrieveA : String → Except JsError FullSession := fun _ => .ok fsA

/-- Store after the first racing invocation commits. -/
def c1Store1 : OrderStore :=
  (saveOrder 0 []
    (sessionToOrderData (generateOrderId []) sessA fsA.line_items)).1

/-- Store after the second racing invocation commits (it passed its
idempotency check while the store was still empty). -/
def c1Store2 : OrderStore :=
  (saveOrder 0 c1Store1
    (sessionToOrderData (generateOrderId c1Store1) sessA fsA.line_items)).1

/-- A checkout session whose payment is not settled. -/
def sessU : Session :=
  { id := "cs_test_unpaid"
    payment_status := "unpaid"
    payment_intent := some "pi_test_u"
    customer_details := { email := "bob@example.com", name := some "Bob" }
    amount_total := 16000
    currency := "usd"
    shipping_details := none
    metadata := []
    created := 1700000100 }

/-- The expanded line items of `sessU`. -/
def fsU : FullSession := { line_items := [⟨"iTapRing White", 2, 16000⟩] }

/-- A provider whose session re-retrieval always succeeds with `fsU`. -/
def retrieveU : String → Except JsError FullSession := fun _ => .ok fsU

/-- An SMTP layer that always succeeds. -/
def smtpOk : Order → Except JsError Unit := fun _ => .ok ()

/-- An SMTP layer that always fails (connection refused). -/
def smtpFail : Order → Except JsError Unit :=
  fun _ => .error { message := "SMTP connection refused", code := some "ECONNREFUSED" }

/-- A signature verifier that accepts and yields a completed-checkout event
for `sessU`. -/
def constructEventU : String → String → String → Except JsError StripeEvent :=
  fun _ _ _ => .ok { type := "checkout.session.completed", data_object := sessU }

/-- The store produced by fulfilling `sessU` on the empty store. -/
def c2Store : OrderStore :=
  (saveOrder 0 []
    (sessionToOrderData (generateOrderId []) sessU fsU.line_items)).1

/-- A catalog with one product, `prod_ring_black`, at $80.00. -/
def prodRB : StripeProduct :=
  { id := "prod_ring_black"
    name := "iTapRing Black"
    description := some "Smart ring"
    images := ["https://img.example/rb.png"]
    default_price := some "price_rb" }

/-- The active default price of `prodRB`: 8000 cents. -/
def priceRB : StripePrice :=
  { id := "price_rb", active := true, unit_amount := 8000, currency := "usd" }

/-- A provider that deterministically serves `prodRB`/`priceRB`. -/
def provEx : Provider :=
  { retrieveProduct := fun spid _ =>
      if spid = "prod_ring_black" then .ok prodRB
      else .error { message := "No such product: " ++ spid, code := none }
    retrievePrice := fun dpid _ =>
      if dpid = "price_rb" then .ok priceRB
      else .error { message := "No such price: " ++ dpid, code := none } }

/-- A provider whose first two attempts time out and whose third attempt
succeeds with `prodRB`/`priceRB`. -/
def provFlaky : Provider :=
  { retrieveProduct := fun _ attempt =>
      if attempt < 3 then .error { message := "Stripe API timeout", code := none }
      else .ok prodRB
    retrievePrice := fun _ _ => .ok priceRB }

/-- A provider that times out on every attempt. -/
def provDown : Provider :=
  { retrieveProduct := fun _ _ =>
      .error { message := "Stripe API timeout", code := none }
    retrievePrice := fun _ _ =>
      .error { message := "Stripe API timeout", code := none } }

/-- An environment mapping only `ring-black`, to `prod_ring_black`. -/
def envEx : ProductEnv :=
  { STRIPE_PRODUCT_RING_BLACK := some "prod_ring_black"
    STRIPE_PRODUCT_RING_WHITE := none
    STRIPE_PRODUCT_CF_MARBLE := none
    STRIPE_PRODUCT_CF_VOLCANO := none
    STRIPE_PRODUCT_GOLD_MARBLE := none
    STRIPE_PRODUCT_GOLD_VOLCANO := none }

/-- A well-formed cart line for `ring-black` claiming exactly $80.00. -/
def itemRB : CartItem :=
  { id := "ring-black"
    name := some "iTapRing Black"
    price := ((8000 : ℤ) : ℚ) / 100
    quantity := 2
    size := some 9
    color := some "Black"
    colorName := none
    category := some "ring" }

/-- The `ring-black` line with a tampered claimed price of $5.00. -/
def itemRBBad : CartItem := { itemRB with price := 5 }

/-- The record persisted when `fulfillOrder` commits a fresh session: the
built order data stamped by `saveOrder` with the save time. -/
def committedOrder (now : ℤ) (store : OrderStore) (sess : Session)
    (fs : FullSession) : Order :=
  { sessionToOrderData (generateOrderId store) sess fs.line_items with
      createdAt := now, updatedAt := some now }

/-- A sample persisted order, for exercising the order-id generator. -/
def orderW : Order :=
  { orderId := "IT-100001"
    stripeSessionId := "cs_w_1"
    stripePaymentIntentId := none
    customerEmail := "w@example.com"
    customerName := none
    amount := 80
    currency := "usd"
    paymentStatus := "paid"
    shippingAddress := none
    items := []
    metadata := []
    createdAt := 0
    updatedAt := none }

/-- A different sample order (different id and session). -/
def orderW2 : Order :=
  { orderW with orderId := "IT-999999", stripeSessionId := "cs_w_2" }

/-! ## String and character lemmas -/

theorem str_data_append (a b : String) : (a ++ b).data = a.data ++ b.data := by
  cases a
  cases b
  rfl

theorem containsSub_eq_false {l sub : List Char} {c : Char} (hc : c ∈ sub)
    (hl : c ∉ l) : containsSub l sub = false := by
  induction l with
  | nil =>
      rw [containsSub]
      cases sub with
      | nil => cases hc
      | cons s ss => rfl
  | cons x t ih =>
      rw [containsSub]
      have hpre : sub.isPrefixOf (x :: t) = false := by
        cases hp : sub.isPrefixOf (x :: t) with
        | false => rfl
        | true =>
            exact absurd ((List.isPrefixOf_iff_prefix.mp hp).subset hc) hl
      rw [hpre]
      exact ih fun hmem => hl (List.mem_cons_of_mem x hmem)

theorem strIncludes_eq_false {s sub : String} {c : Char} (hc : c ∈ sub.data)
    (hl : c ∉ s.data) : strIncludes s sub = false :=
  containsSub_eq_false hc hl

theorem natChars_mem : ∀ fuel n : ℕ, ∀ c ∈ natChars fuel n,
    c ∈ ("0123456789").data := by
  intro fuel
  induction fuel with
  | zero => intro n c hc; cases hc
  | succ f ih =>
      intro n c hc
      rw [natChars] at hc
      by_cases h10 : n < 10
      · rw [if_pos h10] at hc
        rcases List.mem_singleton.mp hc with rfl
        interval_cases n <;> decide
      · rw [if_neg h10] at hc
        rcases List.mem_append.mp hc with h | h
        · exact ih (n / 10) c h
        · rcases List.mem_singleton.mp h with rfl
          have : n % 10 < 10 := Nat.mod_lt _ (by norm_num)
          interval_cases hm : (n % 10) <;> simp_all <;> decide

theorem intStr_mem : ∀ i : ℤ, ∀ c ∈ (intStr i).data,
    c ∈ ("0123456789-").data := by
  intro i c hc
  have widen : ∀ y ∈ ("0123456789").data, y ∈ ("0123456789-").data := by decide
  cases i with
  | ofNat n => exact widen c (natChars_mem (n + 1) n c hc)
  | negSucc n =>
      rcases List.mem_cons.mp hc with rfl | h
      · decide
      · exact widen c (natChars_mem (n + 2) (n + 1) c h)

theorem ratStr_mem (q : ℚ) : ∀ c ∈ (ratStr q).data,
    c ∈ ("0123456789-/").data := by
  intro c hc
  have widen : ∀ y ∈ ("0123456789-").data, y ∈ ("0123456789-/").data := by
    decide
  rw [ratStr] at hc
  split at hc
  · exact widen c (intStr_mem q.num c hc)
  · rw [str_data_append, str_data_append] at hc
    rcases List.mem_append.mp hc with h | h
    · rcases List.mem_append.mp h with h2 | h2
      · exact widen c (intStr_mem q.num c h2)
      · rcases List.mem_singleton.mp h2 with rfl
        decide
    · exact widen c (intStr_mem (q.den : ℤ) c h)

/-- No character of the price-mismatch message is one of the four witness
characters that pin down the transiency markers. -/
theorem priceMismatchErr_not_mem (a c : ℚ) (x : Char)
    (hx : x ∈ ("uSU_").data) : x ∉ (priceMismatchErr a c).message.data := by
  intro hmem
  have hfix1 : ∀ y ∈ ("uSU_").data,
      y ∉ ("Price mismatch: Expected $").data := by decide
  have hfix2 : ∀ y ∈ ("uSU_").data, y ∉ (", got $").data := by decide
  have hrat : ∀ y ∈ ("uSU_").data, y ∉ ("0123456789-/").data := by decide
  rw [priceMismatchErr] at hmem
  simp only [str_data_append] at hmem
  rcases List.mem_append.mp hmem with h | h
  · rcases List.mem_append.mp h with h2 | h2
    · rcases List.mem_append.mp h2 with h3 | h3
      · exact hfix1 x hx h3
      · exact hrat x hx (ratStr_mem a x h3)
    · exact hfix2 x hx h2
  · exact hrat x hx (ratStr_mem c x h)

/-- A price-mismatch rejection is never classified as transient: the retry
predicate of `validateProductPrice` evaluates to `false` on it. -/
theorem mismatch_not_retry (a c : ℚ) :
    shouldRetryErr (priceMismatchErr a c) = false := by
  rw [shouldRetryErr]
  rw [@strIncludes_eq_false (priceMismatchErr a c).message "timeout" 'u'
    (by decide) (priceMismatchErr_not_mem a c 'u' (by decide))]
  rw [@strIncludes_eq_false (priceMismatchErr a c).message "ECONNRESET" 'S'
    (by decide) (priceMismatchErr_not_mem a c 'S' (by decide))]
  rw [@strIncludes_eq_false (priceMismatchErr a c).message "ETIMEDOUT" 'U'
    (by decide) (priceMismatchErr_not_mem a c 'U' (by decide))]
  rw [@strIncludes_eq_false (priceMismatchErr a c).message "EAI_AGAIN" '_'
    (by decide) (priceMismatchErr_not_mem a c '_' (by decide))]
  rfl

/-! ## Lemmas about the product map and the retry loop -/

/-- The product-id map only resolves the six hard-coded frontend ids. -/
theorem getProductIdMap_keys {env : ProductEnv} {pid spid : String}
    (h : getProductIdMap env pid = some spid) :
    pid = "ring-black" ∨ pid = "ring-white" ∨ pid = "bracelet-cf-marble" ∨
    pid = "bracelet-cf-volcano" ∨ pid = "bracelet-gold-marble" ∨
    pid = "bracelet-gold-volcano" := by
  rw [getProductIdMap] at h
  split_ifs at h with h1 h2 h3 h4 h5 h6
  · exact Or.inl h1
  · exact Or.inr (Or.inl h2)
  · exact Or.inr (Or.inr (Or.inl h3))
  · exact Or.inr (Or.inr (Or.inr (Or.inl h4)))
  · exact Or.inr (Or.inr (Or.inr (Or.inr (Or.inl h5))))
  · exact Or.inr (Or.inr (Or.inr (Or.inr (Or.inr h6))))

/-- The inactive-default-price rejection is never classified as transient,
for any of the six resolvable product ids. -/
theorem inactive_not_retry {env : ProductEnv} {pid spid : String}
    (h : getProductIdMap env pid = some spid) :
    shouldRetryErr
      ⟨"Default price not active for product: " ++ pid, none⟩ = false := by
  rcases getProductIdMap_keys h with rfl | rfl | rfl | rfl | rfl | rfl <;> decide

/-- The missing-default-price rejection is never classified as transient,
for any of the six resolvable product ids. -/
theorem noDefault_not_retry {env : ProductEnv} {pid spid : String}
    (h : getProductIdMap env pid = some spid) :
    shouldRetryErr
      ⟨"No default price found for product: " ++ pid, none⟩ = false := by
  rcases getProductIdMap_keys h with rfl | rfl | rfl | rfl | rfl | rfl <;> decide

/-- A successful attempt ends the retry loop at once, with no backoff. -/
theorem attemptLoop_ok {step : ℕ → Except JsError ValidatedItem}
    {retries : ℕ} {productId : String} {f attempt : ℕ}
    {v : ValidatedItem} (h : step attempt = .ok v) :
    attemptLoop step retries productId (f + 1) attempt = (.ok v, []) := by
  rw [attemptLoop]
  simp only [h]

/-- A failed attempt that is final (last attempt, or a non-transient error)
surfaces the error at once, with no further backoff. -/
theorem attemptLoop_stop {step : ℕ → Except JsError ValidatedItem}
    {retries : ℕ} {productId : String} {f attempt : ℕ} {e : JsError}
    (h : step attempt = .error e)
    (hstop : ¬ attempt < retries ∨ shouldRetryErr e = false) :
    attemptLoop step retries productId (f + 1) attempt = (.error e, []) := by
  rw [attemptLoop]
  simp only [h]
  rcases hstop with h1 | h1
  · rw [if_neg h1]
  · by_cases h2 : attempt < retries
    · rw [if_pos h2, h1]
      simp
    · rw [if_neg h2]

/-- A failed attempt classified transient with attempts remaining sleeps
`100 · 2 ^ (attempt − 1)` ms and recurses. -/
theorem attemptLoop_retry {step : ℕ → Except JsError ValidatedItem}
    {retries : ℕ} {productId : String} {f attempt : ℕ} {e : JsError}
    (h : step attempt = .error e) (hlt : attempt < retries)
    (hre : shouldRetryErr e = true) :
    attemptLoop step retries productId (f + 1) attempt =
      ((attemptLoop step retries productId f (attempt + 1)).1,
        100 * 2 ^ (attempt - 1) ::
          (attemptLoop step retries productId f (attempt + 1)).2) := by
  rw [attemptLoop]
  simp only [h]
  rw [if_pos hlt, hre]
  simp

/-- A first-attempt success of `validateAttempt`: the loop returns it
directly. -/
theorem validateProductPriceAux_ok {prov : Provider} {env : ProductEnv}
    {now : String} {productId spid : String} {claimedPrice : ℚ}
    {quantity : ℤ} {size : Option ℤ} {v : ValidatedItem}
    (hmap : getProductIdMap env productId = some spid)
    (h : validateAttempt prov now spid productId claimedPrice quantity size 1 =
      .ok v) :
    validateProductPriceAux prov env now productId claimedPrice quantity size 3 =
      (.ok v, []) := by
  rw [validateProductPriceAux, hmap]
  exact attemptLoop_ok h

/-- Evaluation of one attempt when the provider answers and the claimed
price is within the one-cent tolerance: the validated record carries the
Stripe price, not the claimed one. -/
theorem validateAttempt_ok {prov : Provider} {now : String}
    {spid productId : String} {claimedPrice : ℚ} {quantity : ℤ}
    {size : Option ℤ} {attempt : ℕ} {prod : StripeProduct} {dpid : String}
    {price : StripePrice}
    (hprod : prov.retrieveProduct spid attempt = .ok prod)
    (hdp : jsStr prod.default_price = some dpid)
    (hprice : prov.retrievePrice dpid attempt = .ok price)
    (hact : price.active = true)
    (htol : ¬ 1/100 < |(price.unit_amount : ℚ) / 100 - claimedPrice|) :
    validateAttempt prov now spid productId claimedPrice quantity size attempt =
      .ok { valid := true
            productId := productId
            stripeProductId := prod.id
            stripePriceId := price.id
            validatedPrice := (price.unit_amount : ℚ) / 100
            totalPrice := (price.unit_amount : ℚ) / 100 * (quantity : ℚ)
            productName := prod.name
            productDescription := jsStrOr prod.description prod.name
            productImages := prod.images
            quantity := quantity
            size := size
            verifiedAt := now } := by
  rw [validateAttempt]
  simp only [hprod, hdp, hprice, hact]
  rw [if_neg (by simp : ¬ (true = false))]
  rw [if_neg htol]

/-- Evaluation of one attempt on a price mismatch beyond the tolerance. -/
theorem validateAttempt_mismatch {prov : Provider} {now : String}
    {spid productId : String} {claimedPrice : ℚ} {quantity : ℤ}
    {size : Option ℤ} {attempt : ℕ} {prod : StripeProduct} {dpid : String}
    {price : StripePrice}
    (hprod : prov.retrieveProduct spid attempt = .ok prod)
    (hdp : jsStr prod.default_price = some dpid)
    (hprice : prov.retrievePrice dpid attempt = .ok price)
    (hact : price.active = true)
    (htol : 1/100 < |(price.unit_amount : ℚ) / 100 - claimedPrice|) :
    validateAttempt prov now spid productId claimedPrice quantity size attempt =
      .error (priceMismatchErr ((price.unit_amount : ℚ) / 100) claimedPrice) := by
  rw [validateAttempt]
  simp only [hprod, hdp, hprice, hact]
  rw [if_neg (by simp : ¬ (true = false))]
  rw [if_pos htol]

/-- A price mismatch on the first attempt is surfaced immediately with no
retry and no backoff. -/
theorem validateProductPriceAux_mismatch {prov : Provider} {env : ProductEnv}
    {now : String} {productId spid : String} {claimedPrice : ℚ}
    {quantity : ℤ} {size : Option ℤ} {prod : StripeProduct} {dpid : String}
    {price : StripePrice}
    (hmap : getProductIdMap env productId = some spid)
    (hprod : prov.retrieveProduct spid 1 = .ok prod)
    (hdp : jsStr prod.default_price = some dpid)
    (hprice : prov.retrievePrice dpid 1 = .ok price)
    (hact : price.active = true)
    (htol : 1/100 < |(price.unit_amount : ℚ) / 100 - claimedPrice|) :
    validateProductPriceAux prov env now productId claimedPrice quantity size 3 =
      (.error (priceMismatchErr ((price.unit_amount : ℚ) / 100) claimedPrice),
        []) := by
  rw [validateProductPriceAux, hmap]
  exact attemptLoop_stop
    (validateAttempt_mismatch hprod hdp hprice hact htol)
    (Or.inr (mismatch_not_retry _ _))

/-! ## Cart-loop lemmas -/

theorem enumFrom_append {α : Type} (i : ℕ) (l1 l2 : List α) :
    List.enumFrom i (l1 ++ l2) =
      List.enumFrom i l1 ++ List.enumFrom (i + l1.length) l2 := by
  induction l1 generalizing i with
  | nil =>
      simp only [List.nil_append, List.length_nil, Nat.add_zero,
        List.enumFrom_nil]
  | cons x t ih =>
      rw [List.cons_append, List.enumFrom, List.enumFrom, ih, List.cons_append,
        List.length_cons]
      have harith : i + 1 + t.length = i + (t.length + 1) := by omega
      rw [harith]

theorem lineErrs_nil {prov : Provider} {env : ProductEnv} {now : String}
    {i : ℕ} : lineErrs prov env now [] i = [] := rfl

theorem lineOks_nil {prov : Provider} {env : ProductEnv} {now : String}
    {i : ℕ} : lineOks prov env now [] i = [] := rfl

theorem lineTotal_nil {prov : Provider} {env : ProductEnv} {now : String}
    {i : ℕ} : lineTotal prov env now [] i = 0 := rfl

theorem lineErrs_cons_ok {prov : Provider} {env : ProductEnv} {now : String}
    {i : ℕ} {item : CartItem} {rest : List CartItem} {v : ValidatedCartItem}
    (h : lineOutcome prov env now i item = .ok v) :
    lineErrs prov env now (item :: rest) i = lineErrs prov env now rest (i + 1) := by
  rw [lineErrs, List.enumFrom, List.filterMap_cons]
  simp only [h]
  rfl

theorem lineErrs_cons_err {prov : Provider} {env : ProductEnv} {now : String}
    {i : ℕ} {item : CartItem} {rest : List CartItem} {r : String}
    (h : lineOutcome prov env now i item = .error r) :
    lineErrs prov env now (item :: rest) i =
      r :: lineErrs prov env now rest (i + 1) := by
  rw [lineErrs, List.enumFrom, List.filterMap_cons]
  simp only [h]
  rfl

theorem lineOks_cons_ok {prov : Provider} {env : ProductEnv} {now : String}
    {i : ℕ} {item : CartItem} {rest : List CartItem} {v : ValidatedCartItem}
    (h : lineOutcome prov env now i item = .ok v) :
    lineOks prov env now (item :: rest) i =
      v :: lineOks prov env now rest (i + 1) := by
  rw [lineOks, List.enumFrom, List.filterMap_cons]
  simp only [h]
  rfl

theorem lineOks_cons_err {prov : Provider} {env : ProductEnv} {now : String}
    {i : ℕ} {item : CartItem} {rest : List CartItem} {r : String}
    (h : lineOutcome prov env now i item = .error r) :
    lineOks prov env now (item :: rest) i = lineOks prov env now rest (i + 1) := by
  rw [lineOks, List.enumFrom, List.filterMap_cons]
  simp only [h]
  rfl

theorem lineErrs_append {prov : Provider} {env : ProductEnv} {now : String}
    (l1 l2 : List CartItem) (i : ℕ) :
    lineErrs prov env now (l1 ++ l2) i =
      lineErrs prov env now l1 i ++ lineErrs prov env now l2 (i + l1.length) := by
  rw [lineErrs, enumFrom_append, List.filterMap_append]
  rfl

theorem lineTotal_cons_ok {prov : Provider} {env : ProductEnv} {now : String}
    {i : ℕ} {item : CartItem} {rest : List CartItem} {v : ValidatedCartItem}
    (h : lineOutcome prov env now i item = .ok v) :
    lineTotal prov env now (item :: rest) i =
      v.totalPrice + lineTotal prov env now rest (i + 1) := by
  rw [lineTotal, lineOks_cons_ok h, List.map_cons, List.sum_cons]
  rfl

theorem lineTotal_cons_err {prov : Provider} {env : ProductEnv} {now : String}
    {i : ℕ} {item : CartItem} {rest : List CartItem} {r : String}
    (h : lineOutcome prov env now i item = .error r) :
    lineTotal prov env now (item :: rest) i =
      lineTotal prov env now rest (i + 1) := by
  rw [lineTotal, lineOks_cons_err h]
  rfl

/-- The accumulator loop of `validateCart` computes exactly the per-line
views: every line is processed, successes in order, failure reasons in
order, and the total is the sum of the successful lines' totals. -/
theorem cartLoop_spec {prov : Provider} {env : ProductEnv} {now : String} :
    ∀ (items : List CartItem) (i : ℕ) (vs : List ValidatedCartItem) (t : ℚ)
      (es : List String),
      cartLoop prov env now items i (vs, t, es) =
        (vs ++ lineOks prov env now items i,
          t + lineTotal prov env now items i,
          es ++ lineErrs prov env now items i) := by
  intro items
  induction items with
  | nil =>
      intro i vs t es
      rw [cartLoop, lineOks_nil, lineTotal_nil, lineErrs_nil]
      simp
  | cons item rest ih =>
      intro i vs t es
      rw [cartLoop]
      cases h : lineOutcome prov env now i item with
      | ok v =>
          show cartLoop prov env now rest (i + 1)
            (vs ++ [v], t + v.totalPrice, es) = _
          rw [ih, lineOks_cons_ok h, lineErrs_cons_ok h, lineTotal_cons_ok h]
          refine Prod.ext ?_ (Prod.ext ?_ ?_)
          · simp
          · show t + v.totalPrice + lineTotal prov env now rest (i + 1) =
              t + (v.totalPrice + lineTotal prov env now rest (i + 1))
            ring
          · rfl
      | error r =>
          show cartLoop prov env now rest (i + 1) (vs, t, es ++ [r]) = _
          rw [ih, lineOks_cons_err h, lineErrs_cons_err h, lineTotal_cons_err h]
          refine Prod.ext ?_ (Prod.ext ?_ ?_)
          · rfl
          · rfl
          · simp

/-- Evaluation of `validateCart` on a cart within the size bounds: it
fails with exactly the list of per-line failure reasons when any line
failed, and returns the validated cart with the rounded total otherwise. -/
theorem validateCart_eq {prov : Provider} {env : ProductEnv} {now : String}
    {cartItems : List CartItem} (h1 : cartItems ≠ [])
    (h2 : cartItems.length ≤ 50) :
    validateCart prov env now cartItems =
      if lineErrs prov env now cartItems 0 = [] then
        .ok { valid := true
              items := lineOks prov env now cartItems 0
              totalAmount := roundTo2 (lineTotal prov env now cartItems 0)
              itemCount := (lineOks prov env now cartItems 0).length
              validatedAt := now }
      else
        .error { message := "Validation failed: " ++
                   String.intercalate "; " (lineErrs prov env now cartItems 0),
                 reasons := lineErrs prov env now cartItems 0 } := by
  rw [validateCart]
  rw [if_neg (by simpa using h1)]
  rw [if_neg (by omega : ¬ 50 < cartItems.length)]
  rw [cartLoop_spec]
  simp only [List.nil_append, zero_add]
  by_cases he : lineErrs prov env now cartItems 0 = []
  · rw [if_pos he]
    rw [he]
    rw [if_neg (by simp : ¬ ([] : List String).length ≠ 0)]
  · rw [if_neg he]
    rw [if_pos (by simpa using he)]

/-! ## Per-line outcome lemmas -/

/-- A line that passes the structural and quantity checks but whose price
validation throws becomes the reason string `id: message`. -/
theorem lineOutcome_err {prov : Provider} {env : ProductEnv} {now : String}
    {i : ℕ} {item : CartItem} {e : JsError}
    (hid : item.id ≠ "") (hp0 : item.price ≠ 0) (hq0 : item.quantity ≠ 0)
    (hq1 : 1 ≤ item.quantity) (hq100 : item.quantity ≤ 100)
    (he : validateProductPrice prov env now item.id item.price item.quantity
      item.size 3 = .error e) :
    lineOutcome prov env now i item = .error (item.id ++ ": " ++ e.message) := by
  rw [lineOutcome]
  rw [if_neg (by push_neg; exact ⟨hid, hp0, hq0⟩)]
  rw [if_neg (by push_neg; exact ⟨hq1, hq100⟩)]
  rw [he]

/-- A `GoodItem` line validates successfully, and its line total is its
(authoritative = claimed) price times its quantity. -/
theorem lineOutcome_good {prov : Provider} {env : ProductEnv} {now : String}
    {i : ℕ} {item : CartItem} (hg : GoodItem prov env item) :
    ∃ v, lineOutcome prov env now i item = .ok v ∧
      v.totalPrice = item.price * (item.quantity : ℚ) := by
  obtain ⟨spid, prod, dpid, price, hmap, hprod, hdp, hprice, hact, hpq, hid,
    hp0, hq0, hq1, hq100⟩ := hg
  have htol : ¬ (1 : ℚ)/100 < |(price.unit_amount : ℚ) / 100 - item.price| := by
    rw [hpq]
    simp only [sub_self, abs_zero]
    norm_num
  have hv := @validateAttempt_ok prov now spid item.id item.price
    item.quantity item.size 1 prod dpid price hprod hdp hprice hact htol
  have hvpp : validateProductPrice prov env now item.id item.price
      item.quantity item.size 3 =
      .ok { valid := true
            productId := item.id
            stripeProductId := prod.id
            stripePriceId := price.id
            validatedPrice := (price.unit_amount : ℚ) / 100
            totalPrice := (price.unit_amount : ℚ) / 100 * (item.quantity : ℚ)
            productName := prod.name
            productDescription := jsStrOr prod.description prod.name
            productImages := prod.images
            quantity := item.quantity
            size := item.size
            verifiedAt := now } := by
    rw [validateProductPrice, validateProductPriceAux_ok hmap hv]
  refine ⟨{ toValidatedItem :=
              { valid := true, productId := item.id,
                stripeProductId := prod.id, stripePriceId := price.id,
                validatedPrice := (price.unit_amount : ℚ) / 100,
                totalPrice :=
                  (price.unit_amount : ℚ) / 100 * (item.quantity : ℚ),
                productName := prod.name,
                productDescription := jsStrOr prod.description prod.name,
                productImages := prod.images, quantity := item.quantity,
                size := item.size, verifiedAt := now },
            color := jsStrOr2 item.colorName item.color "Standard",
            metadata :=
              { frontendProductId := item.id,
                color := jsStr item.colorName <|> jsStr item.color,
                size := item.size, category := item.category,
                verifiedAt := now } }, ?_, ?_⟩
  · rw [lineOutcome]
    rw [if_neg (by push_neg; exact ⟨hid, hp0, hq0⟩)]
    rw [if_neg (by push_neg; exact ⟨hq1, hq100⟩)]
    rw [hvpp]
  · show (price.unit_amount : ℚ) / 100 * (item.quantity : ℚ) =
      item.price * (item.quantity : ℚ)
    rw [hpq]

/-- A cart whose lines are all good produces no failure reasons, and its
running total is the exact sum of claimed price × quantity over the
lines. -/
theorem lineErrs_good {prov : Provider} {env : ProductEnv} {now : String} :
    ∀ items : List CartItem, (∀ it ∈ items, GoodItem prov env it) → ∀ i : ℕ,
      lineErrs prov env now items i = [] ∧
      lineTotal prov env now items i =
        (items.map fun it => it.price * (it.quantity : ℚ)).sum := by
  intro items
  induction items with
  | nil =>
      intro _ i
      exact ⟨lineErrs_nil, by rw [lineTotal_nil]; simp⟩
  | cons item rest ih =>
      intro hall i
      obtain ⟨v, hv, htp⟩ :=
        @lineOutcome_good prov env now i item
          (hall item (List.mem_cons_self item rest))
      obtain ⟨ihe, iht⟩ := ih (fun it hit => hall it (List.mem_cons_of_mem item hit)) (i + 1)
      refine ⟨?_, ?_⟩
      · rw [lineErrs_cons_ok hv, ihe]
      · rw [lineTotal_cons_ok hv, iht, htp, List.map_cons, List.sum_cons]

/-! ## Claim C10 -/

/-- Claim C10: the sequential order-id generator is a pure function of the
Order Store's current size — for a store holding `n` orders it returns the
string `IT-` followed by the decimal numeral `100001 + n`, and any two
stores of equal size (in particular, the same store read twice before
either resulting order is saved) yield the identical order id. -/
theorem claim_C10_generateOrderId (store s t : OrderStore) :
    generateOrderId store =
      "IT-" ++ toString (100001 + (getAllOrders store).length) ∧
    ((getAllOrders s).length = (getAllOrders t).length →
      generateOrderId s = generateOrderId t) := by
  constructor
  · rfl
  · intro h
    show "IT-" ++ toString (100001 + (getAllOrders s).length) =
      "IT-" ++ toString (100001 + (getAllOrders t).length)
    rw [h]

/-- Witness for C10 at concrete stores: a one-order store yields
`IT-100002`, and two different one-order stores yield the same id. -/
theorem claim_C10_generateOrderId_witness :
    generateOrderId [orderW] =
      "IT-" ++ toString (100001 + (getAllOrders [orderW]).length) ∧
    generateOrderId [orderW] = generateOrderId [orderW2] :=
  ⟨(claim_C10_generateOrderId [orderW] [orderW] [orderW2]).1,
   (claim_C10_generateOrderId [orderW] [orderW] [orderW2]).2 rfl⟩

/-! ## Claim C5 -/

/-- Claim C5: an empty cart fails with the specific "Cart is empty" reason
and a cart of more than 50 lines fails with the "Cart too large" reason;
both rejections are independent of the provider and the environment — the
result is a constant, so no provider call can have been made. -/
theorem claim_C5_empty_oversized (prov prov2 : Provider) (env env2 : ProductEnv)
    (now now2 : String) (cartItems : List CartItem) :
    validateCart prov env now [] = .error ⟨"Cart is empty", []⟩ ∧
    (50 < cartItems.length →
      validateCart prov env now cartItems =
        .error ⟨"Cart too large (max 50 items)", []⟩) ∧
    validateCart prov env now [] = validateCart prov2 env2 now2 [] ∧
    (50 < cartItems.length →
      validateCart prov env now cartItems =
        validateCart prov2 env2 now2 cartItems) := by
  have hempty : ∀ (p : Provider) (e : ProductEnv) (n : String),
      validateCart p e n [] = .error ⟨"Cart is empty", []⟩ := fun _ _ _ => rfl
  have hlarge : ∀ (p : Provider) (e : ProductEnv) (n : String),
      50 < cartItems.length →
      validateCart p e n cartItems =
        .error ⟨"Cart too large (max 50 items)", []⟩ := by
    intro p e n h
    rw [validateCart]
    rw [if_neg (by omega)]
    rw [if_pos h]
  refine ⟨hempty prov env now, hlarge prov env now, ?_, ?_⟩
  · rw [hempty prov env now, hempty prov2 env2 now2]
  · intro h
    rw [hlarge prov env now h, hlarge prov2 env2 now2 h]

/-- Witness for C5: the empty cart and a 51-line cart, against the sample
provider. -/
theorem claim_C5_empty_oversized_witness :
    validateCart provEx envEx "2025-01-01T00:00:00.000Z" [] =
      .error ⟨"Cart is empty", []⟩ ∧
    validateCart provEx envEx "2025-01-01T00:00:00.000Z"
        (List.replicate 51 itemRB) =
      .error ⟨"Cart too large (max 50 items)", []⟩ :=
  ⟨(claim_C5_empty_oversized provEx provEx envEx envEx
      "2025-01-01T00:00:00.000Z" "2025-01-01T00:00:00.000Z" []).1,
   (claim_C5_empty_oversized provEx provEx envEx envEx
      "2025-01-01T00:00:00.000Z" "2025-01-01T00:00:00.000Z"
      (List.replicate 51 itemRB)).2.1 (by decide)⟩

/-! ## Claim C4 -/

/-- Claim C4: within the size bounds, `validateCart` processes every line
(`lineErrs`/`lineOks` are per-line views, each line judged independently of
the others); if any line failed it throws a single `CartError` whose
`reasons` are exactly the failure reasons of all failing lines, in order —
and no partially validated cart is returned; if no line failed it returns
the validated cart. -/
theorem claim_C4_aggregate_failures (prov : Provider) (env : ProductEnv)
    (now : String) (cartItems : List CartItem) (h1 : cartItems ≠ [])
    (h2 : cartItems.length ≤ 50) :
    (lineErrs prov env now cartItems 0 ≠ [] →
      validateCart prov env now cartItems =
        .error ⟨"Validation failed: " ++
            String.intercalate "; " (lineErrs prov env now cartItems 0),
          lineErrs prov env now cartItems 0⟩) ∧
    (lineErrs prov env now cartItems 0 = [] →
      validateCart prov env now cartItems =
        .ok ⟨true, lineOks prov env now cartItems 0,
          roundTo2 (lineTotal prov env now cartItems 0),
          (lineOks prov env now cartItems 0).length, now⟩) := by
  constructor
  · intro h
    rw [validateCart_eq h1 h2, if_neg h]
  · intro h
    rw [validateCart_eq h1 h2, if_pos h]

/-- Witness for C4 at a concrete one-line cart. -/
theorem claim_C4_aggregate_failures_witness :
    (lineErrs provEx envEx "2025-01-01T00:00:00.000Z" [itemRB] 0 ≠ [] →
      validateCart provEx envEx "2025-01-01T00:00:00.000Z" [itemRB] =
        .error ⟨"Validation failed: " ++ String.intercalate "; "
            (lineErrs provEx envEx "2025-01-01T00:00:00.000Z" [itemRB] 0),
          lineErrs provEx envEx "2025-01-01T00:00:00.000Z" [itemRB] 0⟩) ∧
    (lineErrs provEx envEx "2025-01-01T00:00:00.000Z" [itemRB] 0 = [] →
      validateCart provEx envEx "2025-01-01T00:00:00.000Z" [itemRB] =
        .ok ⟨true, lineOks provEx envEx "2025-01-01T00:00:00.000Z" [itemRB] 0,
          roundTo2 (lineTotal provEx envEx "2025-01-01T00:00:00.000Z" [itemRB] 0),
          (lineOks provEx envEx "2025-01-01T00:00:00.000Z" [itemRB] 0).length,
          "2025-01-01T00:00:00.000Z"⟩) :=
  claim_C4_aggregate_failures provEx envEx "2025-01-01T00:00:00.000Z" [itemRB]
    (by decide) (by decide)

/-! ## Claim C6 -/

/-- Claim C6: a cart whose lines all match the catalog prices exactly (and
pass the structural and quantity checks) validates successfully, and the
returned `totalAmount` is the sum over the lines of quantity × unit price,
rounded to 2 decimal places with standard rounding. -/
theorem claim_C6_total_amount (prov : Provider) (env : ProductEnv)
    (now : String) (cartItems : List CartItem) (h1 : cartItems ≠ [])
    (h2 : cartItems.length ≤ 50)
    (hg : ∀ it ∈ cartItems, GoodItem prov env it) :
    validateCart prov env now cartItems =
      .ok ⟨true, lineOks prov env now cartItems 0,
        roundTo2 ((cartItems.map fun it => it.price * (it.quantity : ℚ)).sum),
        (lineOks prov env now cartItems 0).length, now⟩ := by
  obtain ⟨he, ht⟩ := lineErrs_good cartItems hg 0
  rw [validateCart_eq h1 h2, if_pos he, ht]

/-- The sample `ring-black` line is good against the sample provider. -/
theorem itemRB_good : GoodItem provEx envEx itemRB :=
  ⟨"prod_ring_black", prodRB, "price_rb", priceRB, rfl, rfl, rfl, rfl, rfl,
    rfl, by decide, by norm_num [itemRB], by decide, by decide, by decide⟩

/-- Witness for C6: the one-line exact-price cart validates with the
rounded quantity × price total. -/
theorem claim_C6_total_amount_witness :
    validateCart provEx envEx "2025-01-01T00:00:00.000Z" [itemRB] =
      .ok ⟨true, lineOks provEx envEx "2025-01-01T00:00:00.000Z" [itemRB] 0,
        roundTo2 (([itemRB].map fun it => it.price * (it.quantity : ℚ)).sum),
        (lineOks provEx envEx "2025-01-01T00:00:00.000Z" [itemRB] 0).length,
        "2025-01-01T00:00:00.000Z"⟩ :=
  claim_C6_total_amount provEx envEx "2025-01-01T00:00:00.000Z" [itemRB]
    (by decide) (by decide)
    (fun it hit => by
      rcases List.mem_singleton.mp hit with rfl
      exact itemRB_good)

/-! ## Claim C3 -/

/-- Claim C3: per-line price validation compares the claimed price to the
authoritative Stripe price with an absolute tolerance of `0.01`.  If the
difference exceeds `0.01`, `validateProductPrice` throws the mismatch
error, and any in-bounds cart containing that line (passing its structural
and quantity checks) fails validation with a reason string starting with
that line's productId; if the difference is at most `0.01`, the line is
accepted carrying the verified provider price (never the claimed one). -/
theorem claim_C3_price_tolerance (prov : Provider) (env : ProductEnv)
    (now : String) (pid spid : String) (prod : StripeProduct) (dpid : String)
    (price : StripePrice) (claimed : ℚ) (qty : ℤ) (size : Option ℤ)
    (hmap : getProductIdMap env pid = some spid)
    (hprod : prov.retrieveProduct spid 1 = .ok prod)
    (hdp : jsStr prod.default_price = some dpid)
    (hprice : prov.retrievePrice dpid 1 = .ok price)
    (hact : price.active = true) :
    (1/100 < |(price.unit_amount : ℚ) / 100 - claimed| →
      validateProductPrice prov env now pid claimed qty size 3 =
        .error (priceMismatchErr ((price.unit_amount : ℚ) / 100) claimed) ∧
      ∀ (pre suf : List CartItem) (item : CartItem),
        item.id = pid → item.price = claimed → item.quantity = qty →
        item.size = size → pid ≠ "" → claimed ≠ 0 → qty ≠ 0 → 1 ≤ qty →
        qty ≤ 100 → (pre ++ item :: suf).length ≤ 50 →
        ∃ err, validateCart prov env now (pre ++ item :: suf) = .error err ∧
          ∃ r ∈ err.reasons, ∃ restMsg, r = pid ++ ": " ++ restMsg) ∧
    (¬ 1/100 < |(price.unit_amount : ℚ) / 100 - claimed| →
      validateProductPrice prov env now pid claimed qty size 3 =
        .ok ⟨true, pid, prod.id, price.id, (price.unit_amount : ℚ) / 100,
          (price.unit_amount : ℚ) / 100 * (qty : ℚ), prod.name,
          jsStrOr prod.description prod.name, prod.images, qty, size, now⟩) := by
  constructor
  · intro htol
    have hvpp : validateProductPrice prov env now pid claimed qty size 3 =
        .error (priceMismatchErr ((price.unit_amount : ℚ) / 100) claimed) := by
      rw [validateProductPrice,
        validateProductPriceAux_mismatch hmap hprod hdp hprice hact htol]
    refine ⟨hvpp, ?_⟩
    intro pre suf item hid hpr hq hsz hpid hcl hq0 hq1 hq100 hlen
    have hlo : lineOutcome prov env now pre.length item =
        .error (item.id ++ ": " ++
          (priceMismatchErr ((price.unit_amount : ℚ) / 100) claimed).message) :=
      lineOutcome_err (by rw [hid]; exact hpid) (by rw [hpr]; exact hcl)
        (by rw [hq]; exact hq0) (by rw [hq]; exact hq1) (by rw [hq]; exact hq100)
        (by rw [hid, hpr, hq, hsz]; exact hvpp)
    have hmem : (item.id ++ ": " ++
        (priceMismatchErr ((price.unit_amount : ℚ) / 100) claimed).message) ∈
        lineErrs prov env now (pre ++ item :: suf) 0 := by
      rw [lineErrs_append]
      refine List.mem_append_right _ ?_
      rw [Nat.zero_add]
      rw [lineErrs_cons_err hlo]
      exact List.mem_cons_self _ _
    have hne : lineErrs prov env now (pre ++ item :: suf) 0 ≠ [] :=
      List.ne_nil_of_mem hmem
    have h1 : (pre ++ item :: suf) ≠ [] := by simp
    refine ⟨⟨"Validation failed: " ++ String.intercalate "; "
        (lineErrs prov env now (pre ++ item :: suf) 0),
      lineErrs prov env now (pre ++ item :: suf) 0⟩, ?_, ?_⟩
    · rw [validateCart_eq h1 hlen, if_neg hne]
    · refine ⟨_, hmem, ?_⟩
      refine ⟨(priceMismatchErr ((price.unit_amount : ℚ) / 100) claimed).message,
        ?_⟩
      rw [hid]
  · intro htol
    rw [validateProductPrice,
      validateProductPriceAux_ok hmap (validateAttempt_ok hprod hdp hprice hact htol)]

/-- The tampered claimed price of $5.00 is far outside the one-cent
tolerance of the $80.00 catalog price. -/
theorem tamperedTol : (1 : ℚ)/100 < |(priceRB.unit_amount : ℚ) / 100 - 5| := by
  norm_num [priceRB]

/-- A claimed price of $5.00 is non-zero (it passes the JS falsiness
check). -/
theorem fiveNeZero : (5 : ℚ) ≠ 0 := by norm_num

/-- The exact claimed price matches the catalog price within tolerance. -/
theorem exactTol :
    ¬ (1 : ℚ)/100 < |(priceRB.unit_amount : ℚ) / 100 - itemRB.price| := by
  norm_num [priceRB, itemRB]

/-- Witness for C3: the tampered $5.00 `ring-black` line makes the
one-line cart fail with a `ring-black`-prefixed reason, and the exact-price
line is accepted at the Stripe price. -/
theorem claim_C3_price_tolerance_witness :
    (∃ err, validateCart provEx envEx "2025-01-01T00:00:00.000Z" [itemRBBad] =
        .error err ∧
      ∃ r ∈ err.reasons, ∃ restMsg, r = "ring-black" ++ ": " ++ restMsg) ∧
    validateProductPrice provEx envEx "2025-01-01T00:00:00.000Z" "ring-black"
        itemRB.price 2 (some 9) 3 =
      .ok ⟨true, "ring-black", prodRB.id, priceRB.id,
        (priceRB.unit_amount : ℚ) / 100,
        (priceRB.unit_amount : ℚ) / 100 * ((2 : ℤ) : ℚ), prodRB.name,
        jsStrOr prodRB.description prodRB.name, prodRB.images, 2, some 9,
        "2025-01-01T00:00:00.000Z"⟩ :=
  ⟨((claim_C3_price_tolerance provEx envEx "2025-01-01T00:00:00.000Z"
      "ring-black" "prod_ring_black" prodRB "price_rb" priceRB 5 2 (some 9)
      rfl rfl rfl rfl rfl).1 tamperedTol).2 [] [] itemRBBad rfl rfl rfl rfl
      (by decide) fiveNeZero (by decide) (by decide) (by decide) (by decide),
   (claim_C3_price_tolerance provEx envEx "2025-01-01T00:00:00.000Z"
      "ring-black" "prod_ring_black" prodRB "price_rb" priceRB itemRB.price 2
      (some 9) rfl rfl rfl rfl rfl).2 exactTol⟩

/-! ## Claim C7 -/

/-- Evaluation of one attempt when the default price is not active. -/
theorem validateAttempt_inactive {prov : Provider} {now : String}
    {spid productId : String} {claimedPrice : ℚ} {quantity : ℤ}
    {size : Option ℤ} {attempt : ℕ} {prod : StripeProduct} {dpid : String}
    {price : StripePrice}
    (hprod : prov.retrieveProduct spid attempt = .ok prod)
    (hdp : jsStr prod.default_price = some dpid)
    (hprice : prov.retrievePrice dpid attempt = .ok price)
    (hact : price.active = false) :
    validateAttempt prov now spid productId claimedPrice quantity size attempt =
      .error ⟨"Default price not active for product: " ++ productId, none⟩ := by
  rw [validateAttempt]
  simp only [hprod, hdp, hprice]
  rw [if_pos hact]

/-- Claim C7: a transient provider failure (per the message/code
classification of the `catch` block) is retried up to the fixed bound of 3
attempts with backoff delays of 100 ms then 200 ms (doubling), the error
surfacing only when the bound is exhausted; an authoritative rejection —
price mismatch, inactive price, or unknown product — is raised immediately
with no retry and no backoff. -/
theorem claim_C7_retry_policy (prov : Provider) (env : ProductEnv)
    (now : String) (pid spid : String) (claimed : ℚ) (qty : ℤ)
    (size : Option ℤ) (hmap : getProductIdMap env pid = some spid) :
    (∀ {e1 e2 : JsError} {v : ValidatedItem},
      validateAttempt prov now spid pid claimed qty size 1 = .error e1 →
      shouldRetryErr e1 = true →
      validateAttempt prov now spid pid claimed qty size 2 = .error e2 →
      shouldRetryErr e2 = true →
      validateAttempt prov now spid pid claimed qty size 3 = .ok v →
      validateProductPriceAux prov env now pid claimed qty size 3 =
        (.ok v, [100, 200])) ∧
    (∀ {e1 e2 e3 : JsError},
      validateAttempt prov now spid pid claimed qty size 1 = .error e1 →
      shouldRetryErr e1 = true →
      validateAttempt prov now spid pid claimed qty size 2 = .error e2 →
      shouldRetryErr e2 = true →
      validateAttempt prov now spid pid claimed qty size 3 = .error e3 →
      validateProductPriceAux prov env now pid claimed qty size 3 =
        (.error e3, [100, 200])) ∧
    (∀ {e1 : JsError},
      validateAttempt prov now spid pid claimed qty size 1 = .error e1 →
      shouldRetryErr e1 = false →
      validateProductPriceAux prov env now pid claimed qty size 3 =
        (.error e1, [])) ∧
    (∀ {prod : StripeProduct} {dpid : String} {price : StripePrice},
      prov.retrieveProduct spid 1 = .ok prod →
      jsStr prod.default_price = some dpid →
      prov.retrievePrice dpid 1 = .ok price → price.active = true →
      1/100 < |(price.unit_amount : ℚ) / 100 - claimed| →
      validateProductPriceAux prov env now pid claimed qty size 3 =
        (.error (priceMismatchErr ((price.unit_amount : ℚ) / 100) claimed),
          [])) ∧
    (∀ {prod : StripeProduct} {dpid : String} {price : StripePrice},
      prov.retrieveProduct spid 1 = .ok prod →
      jsStr prod.default_price = some dpid →
      prov.retrievePrice dpid 1 = .ok price → price.active = false →
      validateProductPriceAux prov env now pid claimed qty size 3 =
        (.error ⟨"Default price not active for product: " ++ pid, none⟩, [])) ∧
    (∀ pid2 : String, getProductIdMap env pid2 = none →
      validateProductPriceAux prov env now pid2 claimed qty size 3 =
        (.error ⟨"Invalid product: " ++ pid2, none⟩, [])) := by
  refine ⟨?_, ?_, ?_, ?_, ?_, ?_⟩
  · intro e1 e2 v h1 ht1 h2 ht2 h3
    rw [validateProductPriceAux, hmap]
    have s3 : attemptLoop (validateAttempt prov now spid pid claimed qty size)
        3 pid 1 3 = (.ok v, []) := attemptLoop_ok (f := 0) h3
    have s2 : attemptLoop (validateAttempt prov now spid pid claimed qty size)
        3 pid 2 2 =
        ((attemptLoop (validateAttempt prov now spid pid claimed qty size)
            3 pid 1 3).1,
          200 :: (attemptLoop
            (validateAttempt prov now spid pid claimed qty size) 3 pid 1 3).2) :=
      attemptLoop_retry (f := 1) h2 (by decide) ht2
    have s1 : attemptLoop (validateAttempt prov now spid pid claimed qty size)
        3 pid 3 1 =
        ((attemptLoop (validateAttempt prov now spid pid claimed qty size)
            3 pid 2 2).1,
          100 :: (attemptLoop
            (validateAttempt prov now spid pid claimed qty size) 3 pid 2 2).2) :=
      attemptLoop_retry (f := 2) h1 (by decide) ht1
    show attemptLoop (validateAttempt prov now spid pid claimed qty size)
      3 pid 3 1 = (.ok v, [100, 200])
    rw [s1, s2, s3]
  · intro e1 e2 e3 h1 ht1 h2 ht2 h3
    rw [validateProductPriceAux, hmap]
    have s3 : attemptLoop (validateAttempt prov now spid pid claimed qty size)
        3 pid 1 3 = (.error e3, []) :=
      attemptLoop_stop (f := 0) h3 (Or.inl (by decide))
    have s2 : attemptLoop (validateAttempt prov now spid pid claimed qty size)
        3 pid 2 2 =
        ((attemptLoop (validateAttempt prov now spid pid claimed qty size)
            3 pid 1 3).1,
          200 :: (attemptLoop
            (validateAttempt prov now spid pid claimed qty size) 3 pid 1 3).2) :=
      attemptLoop_retry (f := 1) h2 (by decide) ht2
    have s1 : attemptLoop (validateAttempt prov now spid pid claimed qty size)
        3 pid 3 1 =
        ((attemptLoop (validateAttempt prov now spid pid claimed qty size)
            3 pid 2 2).1,
          100 :: (attemptLoop
            (validateAttempt prov now spid pid claimed qty size) 3 pid 2 2).2) :=
      attemptLoop_retry (f := 2) h1 (by decide) ht1
    show attemptLoop (validateAttempt prov now spid pid claimed qty size)
      3 pid 3 1 = (.error e3, [100, 200])
    rw [s1, s2, s3]
  · intro e1 h1 hf
    rw [validateProductPriceAux, hmap]
    exact attemptLoop_stop (f := 2) h1 (Or.inr hf)
  · intro prod dpid price hprod hdp hprice hact htol
    exact validateProductPriceAux_mismatch hmap hprod hdp hprice hact htol
  · intro prod dpid price hprod hdp hprice hact
    rw [validateProductPriceAux, hmap]
    exact attemptLoop_stop (f := 2)
      (validateAttempt_inactive hprod hdp hprice hact)
      (Or.inr (inactive_not_retry hmap))
  · intro pid2 hnone
    rw [validateProductPriceAux, hnone]

/-- Witness for C7: against the flaky provider the `ring-black` line
succeeds on the third attempt after 100 ms and 200 ms backoffs; against
the always-down provider the timeout surfaces after three attempts; and
the tampered price is rejected with no retry. -/
theorem claim_C7_retry_policy_witness :
    validateProductPriceAux provFlaky envEx "2025-01-01T00:00:00.000Z"
        "ring-black" itemRB.price 2 (some 9) 3 =
      (.ok ⟨true, "ring-black", prodRB.id, priceRB.id,
        (priceRB.unit_amount : ℚ) / 100,
        (priceRB.unit_amount : ℚ) / 100 * ((2 : ℤ) : ℚ), prodRB.name,
        jsStrOr prodRB.description prodRB.name, prodRB.images, 2, some 9,
        "2025-01-01T00:00:00.000Z"⟩, [100, 200]) ∧
    validateProductPriceAux provDown envEx "2025-01-01T00:00:00.000Z"
        "ring-black" itemRB.price 2 (some 9) 3 =
      (.error ⟨"Stripe API timeout", none⟩, [100, 200]) ∧
    validateProductPriceAux provEx envEx "2025-01-01T00:00:00.000Z"
        "ring-black" 5 2 (some 9) 3 =
      (.error (priceMismatchErr ((priceRB.unit_amount : ℚ) / 100) 5), []) :=
  ⟨(claim_C7_retry_policy provFlaky envEx "2025-01-01T00:00:00.000Z"
      "ring-black" "prod_ring_black" itemRB.price 2 (some 9) rfl).1
      rfl (by decide) rfl (by decide)
      (validateAttempt_ok rfl rfl rfl rfl exactTol),
   ((claim_C7_retry_policy provDown envEx "2025-01-01T00:00:00.000Z"
      "ring-black" "prod_ring_black" itemRB.price 2 (some 9) rfl).2.1
      rfl (by decide) rfl (by decide) rfl),
   ((claim_C7_retry_policy provEx envEx "2025-01-01T00:00:00.000Z"
      "ring-black" "prod_ring_black" 5 2 (some 9) rfl).2.2.2.1
      rfl rfl rfl rfl tamperedTol)⟩

/-! ## Claim C8 -/

/-- Claim C8: the webhook handler fails closed — an unconfigured signing
secret, a missing signature header, or a failing signature verification
each reject the event with the store untouched; only a successfully
verified `checkout.session.completed` event invokes the fulfillment
pipeline, with the session extracted from the event, and any other
verified event type is acknowledged without touching the store. -/
theorem claim_C8_webhook_fail_closed
    (constructEvent : String → String → String → Except JsError StripeEvent)
    (retrieve : String → Except JsError FullSession)
    (smtp : Order → Except JsError Unit) (now : ℤ) (store : OrderStore)
    (webhookSecret sig : Option String) (body : String) :
    (jsStr webhookSecret = none →
      handleWebhook constructEvent retrieve smtp now store webhookSecret sig
        body = (store, .configError)) ∧
    (∀ sec, jsStr webhookSecret = some sec → jsStr sig = none →
      handleWebhook constructEvent retrieve smtp now store webhookSecret sig
        body = (store, .missingSignature)) ∧
    (∀ sec s e, jsStr webhookSecret = some sec → jsStr sig = some s →
      constructEvent body s sec = .error e →
      handleWebhook constructEvent retrieve smtp now store webhookSecret sig
        body = (store, .invalidSignature)) ∧
    (∀ sec s ev, jsStr webhookSecret = some sec → jsStr sig = some s →
      constructEvent body s sec = .ok ev →
      ev.type = "checkout.session.completed" →
      handleWebhook constructEvent retrieve smtp now store webhookSecret sig
        body =
        (match fulfillOrder retrieve smtp now store ev.data_object with
          | .ok newStore => (newStore, .received)
          | .error _ => (store, .handlerFailed))) ∧
    (∀ sec s ev, jsStr webhookSecret = some sec → jsStr sig = some s →
      constructEvent body s sec = .ok ev →
      ev.type ≠ "checkout.session.completed" →
      handleWebhook constructEvent retrieve smtp now store webhookSecret sig
        body = (store, .received)) := by
  refine ⟨?_, ?_, ?_, ?_, ?_⟩
  · intro h
    rw [handleWebhook]
    simp only [h]
  · intro sec hsec hsig
    rw [handleWebhook]
    simp only [hsec, hsig]
  · intro sec s e hsec hsig hev
    rw [handleWebhook]
    simp only [hsec, hsig, hev]
  · intro sec s ev hsec hsig hev htype
    rw [handleWebhook]
    simp only [hsec, hsig, hev]
    rw [if_pos htype]
  · intro sec s ev hsec hsig hev htype
    rw [handleWebhook]
    simp only [hsec, hsig, hev]
    rw [if_neg htype]

/-- Witness for C8: concrete rejections (no secret, no signature, failing
verifier) and the verified completed event reaching the pipeline. -/
theorem claim_C8_webhook_fail_closed_witness :
    handleWebhook constructEventU retrieveU smtpOk 0 [] none
        (some "t=1,v1=sig") "payload" = ([], .configError) ∧
    handleWebhook constructEventU retrieveU smtpOk 0 [] (some "whsec_test")
        none "payload" = ([], .missingSignature) ∧
    handleWebhook (fun _ _ _ => .error ⟨"Invalid signature", none⟩) retrieveU
        smtpOk 0 [] (some "whsec_test") (some "t=1,v1=sig") "payload" =
      ([], .invalidSignature) ∧
    handleWebhook constructEventU retrieveU smtpOk 0 [] (some "whsec_test")
        (some "t=1,v1=sig") "payload" =
      (match fulfillOrder retrieveU smtpOk 0 [] sessU with
        | .ok newStore => (newStore, .received)
        | .error _ => ([], .handlerFailed)) :=
  ⟨(claim_C8_webhook_fail_closed constructEventU retrieveU smtpOk 0 [] none
      (some "t=1,v1=sig") "payload").1 rfl,
   (claim_C8_webhook_fail_closed constructEventU retrieveU smtpOk 0 []
      (some "whsec_test") none "payload").2.1 "whsec_test" rfl rfl,
   (claim_C8_webhook_fail_closed (fun _ _ _ => .error ⟨"Invalid signature", none⟩)
      retrieveU smtpOk 0 [] (some "whsec_test") (some "t=1,v1=sig")
      "payload").2.2.1 "whsec_test" "t=1,v1=sig" ⟨"Invalid signature", none⟩
      rfl rfl rfl,
   (claim_C8_webhook_fail_closed constructEventU retrieveU smtpOk 0 []
      (some "whsec_test") (some "t=1,v1=sig") "payload").2.2.2.1 "whsec_test"
      "t=1,v1=sig" ⟨"checkout.session.completed", sessU⟩ rfl rfl rfl rfl⟩

/-! ## Claim C9 -/

/-- Claim C9: once the Order is persisted, the notification dispatch is
wrapped in `try/catch` and its outcome is discarded — both fulfillment
entry points return the same result for any two SMTP behaviours, and with
an arbitrary (in particular always-failing) SMTP layer the fulfillment
still persists the Order and, on the verify path, still responds with it;
nothing is rolled back. -/
theorem claim_C9_email_failure_swallowed
    (retrieve : String → Except JsError FullSession)
    (retrieveExpanded : String → Except JsError (Session × List LineItem))
    (smtp1 smtp2 : Order → Except JsError Unit) (now : ℤ)
    (store : OrderStore) (sess : Session) (sessionId : String) :
    fulfillOrder retrieve smtp1 now store sess =
      fulfillOrder retrieve smtp2 now store sess ∧
    verifyCheckoutSession retrieveExpanded smtp1 now store sessionId =
      verifyCheckoutSession retrieveExpanded smtp2 now store sessionId ∧
    (∀ fs : FullSession, getOrderBySessionId store sess.id = none →
      retrieve sess.id = .ok fs → ∀ smtp : Order → Except JsError Unit,
      fulfillOrder retrieve smtp now store sess =
        .ok (saveOrder now store
          (sessionToOrderData (generateOrderId store) sess fs.line_items)).1) ∧
    (∀ (session : Session) (lineItems : List LineItem),
      retrieveExpanded sessionId = .ok (session, lineItems) →
      session.payment_status = "paid" →
      getOrderBySessionId store sessionId = none →
      ∀ smtp : Order → Except JsError Unit,
      verifyCheckoutSession retrieveExpanded smtp now store sessionId =
        ((saveOrder now store
            { sessionToOrderData (generateOrderId store) session lineItems with
                stripeSessionId := sessionId }).1,
          .success
            { sessionToOrderData (generateOrderId store) session lineItems with
                stripeSessionId := sessionId })) := by
  refine ⟨?_, ?_, ?_, ?_⟩
  · rw [fulfillOrder, fulfillOrder]
  · rw [verifyCheckoutSession, verifyCheckoutSession]
  · intro fs hnone hr smtp
    rw [fulfillOrder]
    simp only [hnone, hr]
  · intro session lineItems hre hps hnone smtp
    rw [verifyCheckoutSession]
    simp only [hre]
    rw [if_neg (by simp [hps])]
    simp only [hnone]

/-- Witness for C9: fulfilling `sessA` on the empty store with a failing
SMTP layer still persists and matches the succeeding-SMTP run, and the
verify path responds with the persisted order data under a failing SMTP
layer. -/
theorem claim_C9_email_failure_swallowed_witness :
    fulfillOrder retrieveA smtpFail 0 [] sessA =
      fulfillOrder retrieveA smtpOk 0 [] sessA ∧
    fulfillOrder retrieveA smtpFail 0 [] sessA =
      .ok (saveOrder 0 []
        (sessionToOrderData (generateOrderId []) sessA fsA.line_items)).1 ∧
    verifyCheckoutSession (fun _ => .ok (sessA, fsA.line_items)) smtpFail 0 []
        "cs_test_a" =
      ((saveOrder 0 []
          { sessionToOrderData (generateOrderId []) sessA fsA.line_items with
              stripeSessionId := "cs_test_a" }).1,
        .success
          { sessionToOrderData (generateOrderId []) sessA fsA.line_items with
              stripeSessionId := "cs_test_a" }) :=
  ⟨(claim_C9_email_failure_swallowed retrieveA
      (fun _ => .ok (sessA, fsA.line_items)) smtpFail smtpOk 0 [] sessA
      "cs_test_a").1,
   (claim_C9_email_failure_swallowed retrieveA
      (fun _ => .ok (sessA, fsA.line_items)) smtpFail smtpOk 0 [] sessA
      "cs_test_a").2.2.1 fsA rfl rfl smtpFail,
   (claim_C9_email_failure_swallowed retrieveA
      (fun _ => .ok (sessA, fsA.line_items)) smtpFail smtpOk 0 [] sessA
      "cs_test_a").2.2.2 sessA fsA.line_items rfl rfl rfl smtpFail⟩

/-! ## Claim C2 (corrected) -/

/-- Counterexample to claim C2: `sessU` has `payment_status = "unpaid"`,
yet the webhook-path `fulfillOrder` — invoked by `handleWebhook` on a
verified `checkout.session.completed` event — persists an Order for it
(one order, carrying the unpaid status, with no error raised).  The claim
that fulfillment on a non-settled session never creates an Order is
therefore false for the webhook trigger: `fulfillOrder` performs no
`payment_status` check. -/
theorem claim_C2_counterexample :
    sessU.payment_status ≠ "paid" ∧
    fulfillOrder retrieveU smtpOk 0 [] sessU = .ok c2Store ∧
    c2Store.map (fun o => o.stripeSessionId) = ["cs_test_unpaid"] ∧
    c2Store.map (fun o => o.paymentStatus) = ["unpaid"] ∧
    ((handleWebhook constructEventU retrieveU smtpOk 0 [] (some "whsec_test")
        (some "t=1,v1=sig") "payload").1.map fun o => o.paymentStatus) =
      ["unpaid"] ∧
    (handleWebhook constructEventU retrieveU smtpOk 0 [] (some "whsec_test")
        (some "t=1,v1=sig") "payload").2 = .received :=
  ⟨by decide, rfl, by decide, by decide, by decide, by decide⟩

/-- Claim C2 as amended: only the synchronous client verify path rejects a
session whose `payment_status` is not `"paid"` — it responds "Payment not
completed" and leaves the store untouched; the webhook-path `fulfillOrder`
performs no settlement check and persists an Order whose `paymentStatus`
simply copies the session's, whatever it is. -/
theorem claim_C2_amended
    (retrieveExpanded : String → Except JsError (Session × List LineItem))
    (retrieve : String → Except JsError FullSession)
    (smtp : Order → Except JsError Unit) (now : ℤ) (store : OrderStore)
    (sessionId : String) (session : Session) (lineItems : List LineItem)
    (sess : Session) (fs : FullSession) :
    (retrieveExpanded sessionId = .ok (session, lineItems) →
      session.payment_status ≠ "paid" →
      verifyCheckoutSession retrieveExpanded smtp now store sessionId =
        (store, .paymentNotComplete session.payment_status)) ∧
    (getOrderBySessionId store sess.id = none → retrieve sess.id = .ok fs →
      fulfillOrder retrieve smtp now store sess =
        .ok (saveOrder now store
          (sessionToOrderData (generateOrderId store) sess fs.line_items)).1 ∧
      (sessionToOrderData (generateOrderId store) sess
          fs.line_items).paymentStatus = sess.payment_status) := by
  constructor
  · intro hre hps
    rw [verifyCheckoutSession]
    simp only [hre]
    rw [if_pos hps]
  · intro hnone hr
    constructor
    · rw [fulfillOrder]
      simp only [hnone, hr]
    · rfl

/-- Witness for the amended C2: the verify path rejects the unpaid
session without touching the store, while the webhook path persists it. -/
theorem claim_C2_amended_witness :
    verifyCheckoutSession (fun _ => .ok (sessU, fsU.line_items)) smtpOk 0 []
        "cs_test_unpaid" = ([], .paymentNotComplete sessU.payment_status) ∧
    fulfillOrder retrieveU smtpOk 0 [] sessU =
      .ok (saveOrder 0 []
        (sessionToOrderData (generateOrderId []) sessU fsU.line_items)).1 ∧
    (sessionToOrderData (generateOrderId []) sessU
        fsU.line_items).paymentStatus = sessU.payment_status :=
  ⟨(claim_C2_amended (fun _ => .ok (sessU, fsU.line_items)) retrieveU smtpOk 0
      [] "cs_test_unpaid" sessU fsU.line_items sessU fsU).1 rfl (by decide),
   (claim_C2_amended (fun _ => .ok (sessU, fsU.line_items)) retrieveU smtpOk 0
      [] "cs_test_unpaid" sessU fsU.line_items sessU fsU).2 rfl rfl⟩

/-! ## Claim C1 (corrected) -/

/-- `saveOrder` on a taken `orderId` returns the existing record and
leaves the store unchanged (idempotent per orderId). -/
theorem saveOrder_existing {now : ℤ} {store : OrderStore} {od existing : Order}
    (h : store.find? (fun x => x.orderId == od.orderId) = some existing) :
    saveOrder now store od = (store, existing) := by
  rw [saveOrder, h]

/-- `saveOrder` on a fresh `orderId` appends the time-stamped record. -/
theorem saveOrder_insert {now : ℤ} {store : OrderStore} {od : Order}
    (h : store.find? (fun x => x.orderId == od.orderId) = none) :
    saveOrder now store od =
      (store ++ [{ od with createdAt := now, updatedAt := some now }],
        { od with createdAt := now, updatedAt := some now }) := by
  rw [saveOrder, h]

/-- Counterexample to claim C1: from the empty store, two `fulfillOrder`
invocations for the same session `sessA` (the client verify call and the
webhook racing) may both pass the `getOrderBySessionId` check before
either writes; the scheduler trace below is reachable and ends with TWO
persisted Orders for `providerSessionId = "cs_test_a"`, with different
orderIds (`IT-100001` and `IT-100002`).  Moreover `saveOrder` accepts the
second insert because its insert-if-absent key is `orderId`, not
`providerSessionId`: saving a fresh-orderId order under an
already-present session id grows the store to two orders for that
session. -/
theorem claim_C1_counterexample :
    fulfillReachable retrieveA (c1Store2, []) ∧
    c1Store2.map (fun o => o.stripeSessionId) = ["cs_test_a", "cs_test_a"] ∧
    c1Store2.map (fun o => o.orderId) = ["IT-100001", "IT-100002"] ∧
    ((saveOrder 5 [orderW]
        { orderW2 with stripeSessionId := "cs_w_1" }).1.map fun o =>
          o.stripeSessionId) = ["cs_w_1", "cs_w_1"] := by
  refine ⟨?_, by decide, by decide, by decide⟩
  have h1 : FulfillStep retrieveA ([], []) ([], [⟨sessA, .checking⟩]) :=
    FulfillStep.start [] [] sessA
  have h2 : FulfillStep retrieveA ([], [⟨sessA, .checking⟩])
      ([], [⟨sessA, .checking⟩, ⟨sessA, .checking⟩]) :=
    FulfillStep.start [] [⟨sessA, .checking⟩] sessA
  have h3 : FulfillStep retrieveA
      ([], [⟨sessA, .checking⟩, ⟨sessA, .checking⟩])
      ([], [⟨sessA, .committing⟩, ⟨sessA, .checking⟩]) :=
    FulfillStep.checkMiss [] [] [⟨sessA, .checking⟩] sessA rfl
  have h4 : FulfillStep retrieveA
      ([], [⟨sessA, .committing⟩, ⟨sessA, .checking⟩])
      ([], [⟨sessA, .committing⟩, ⟨sessA, .committing⟩]) :=
    FulfillStep.checkMiss [] [⟨sessA, .committing⟩] [] sessA rfl
  have h5 : FulfillStep retrieveA
      ([], [⟨sessA, .committing⟩, ⟨sessA, .committing⟩])
      (c1Store1, [⟨sessA, .committing⟩]) :=
    FulfillStep.commit 0 [] [] [⟨sessA, .committing⟩] sessA fsA rfl
  have h6 : FulfillStep retrieveA (c1Store1, [⟨sessA, .committing⟩])
      (c1Store2, []) :=
    FulfillStep.commit 0 c1Store1 [] [] sessA fsA rfl
  exact Relation.ReflTransGen.head h1 (Relation.ReflTransGen.head h2
    (Relation.ReflTransGen.head h3 (Relation.ReflTransGen.head h4
      (Relation.ReflTransGen.head h5 (Relation.ReflTransGen.head h6
        Relation.ReflTransGen.refl)))))

/-- Claim C1 as amended: the Order Store's `saveOrder` is an atomic
insert-if-absent keyed on `orderId` only — a duplicate orderId returns the
existing record, a fresh orderId always inserts, regardless of
`providerSessionId`.  Per-session uniqueness rests solely on the
non-atomic lookup-before-insert in `fulfillOrder`: an invocation that
finds an existing Order for the session returns it unchanged, and from a
state with no Order for the session a single (non-interleaved) invocation
persists exactly one Order for it — but, as the counterexample trace
shows, interleaved invocations can persist two Orders with the same
providerSessionId and different orderIds. -/
theorem claim_C1_amended (retrieve : String → Except JsError FullSession)
    (smtp : Order → Except JsError Unit) (now : ℤ) (store : OrderStore)
    (od existing o : Order) (sess : Session) (fs : FullSession) :
    (store.find? (fun x => x.orderId == od.orderId) = some existing →
      saveOrder now store od = (store, existing)) ∧
    (store.find? (fun x => x.orderId == od.orderId) = none →
      saveOrder now store od =
        (store ++ [{ od with createdAt := now, updatedAt := some now }],
          { od with createdAt := now, updatedAt := some now })) ∧
    (getOrderBySessionId store sess.id = some o →
      fulfillOrder retrieve smtp now store sess = .ok store) ∧
    (getOrderBySessionId store sess.id = none → retrieve sess.id = .ok fs →
      store.find? (fun x => x.orderId == generateOrderId store) = none →
      fulfillOrder retrieve smtp now store sess =
        .ok (store ++ [committedOrder now store sess fs]) ∧
      ((store ++ [committedOrder now store sess fs]).filter fun x =>
          x.stripeSessionId == sess.id).length = 1) := by
  refine ⟨saveOrder_existing, saveOrder_insert, ?_, ?_⟩
  · intro hsome
    rw [fulfillOrder]
    simp only [hsome]
  · intro hnone hr hfresh
    have hsave : saveOrder now store
        (sessionToOrderData (generateOrderId store) sess fs.line_items) =
        (store ++ [committedOrder now store sess fs],
          committedOrder now store sess fs) :=
      saveOrder_insert hfresh
    constructor
    · rw [fulfillOrder]
      simp only [hnone, hr]
      rw [hsave]
    · have hstore : store.filter (fun x => x.stripeSessionId == sess.id) = [] := by
        rw [List.filter_eq_nil_iff]
        intro a ha
        have := List.find?_eq_none.mp hnone a ha
        simpa using this
      rw [List.filter_append, hstore, List.nil_append]
      rw [List.filter_cons]
      rw [if_pos (show ((committedOrder now store sess fs).stripeSessionId ==
        sess.id) = true from beq_self_eq_true sess.id)]
      rfl

/-- Witness for the amended C1: duplicate-orderId save is a no-op,
fresh-orderId save inserts, an already-fulfilled session short-circuits,
and a fresh fulfillment persists exactly one order for the session. -/
theorem claim_C1_amended_witness :
    saveOrder 5 [orderW] { orderW with customerEmail := "other@example.com" } =
      ([orderW], orderW) ∧
    saveOrder 5 [orderW] orderW2 =
      ([orderW, { orderW2 with createdAt := 5, updatedAt := some 5 }],
        { orderW2 with createdAt := 5, updatedAt := some 5 }) ∧
    fulfillOrder retrieveA smtpOk 0
        [{ orderW with stripeSessionId := "cs_test_a" }] sessA =
      .ok [{ orderW with stripeSessionId := "cs_test_a" }] ∧
    (fulfillOrder retrieveA smtpOk 0 [] sessA =
      .ok ([] ++ [committedOrder 0 [] sessA fsA]) ∧
    (([] ++ [committedOrder 0 [] sessA fsA]).filter fun x : Order =>
        x.stripeSessionId == sessA.id).length = 1) :=
  ⟨(claim_C1_amended retrieveA smtpOk 5 [orderW]
      { orderW with customerEmail := "other@example.com" } orderW orderW sessA
      fsA).1 rfl,
   (claim_C1_amended retrieveA smtpOk 5 [orderW] orderW2 orderW orderW sessA
      fsA).2.1 rfl,
   (claim_C1_amended retrieveA smtpOk 0
      [{ orderW with stripeSessionId := "cs_test_a" }] orderW orderW
      { orderW with stripeSessionId := "cs_test_a" } sessA fsA).2.2.1 rfl,
   (claim_C1_amended retrieveA smtpOk 0 [] orderW orderW orderW sessA
      fsA).2.2.2 rfl rfl rfl⟩

end ITap
